import Mathlib

/-!
Shallow embedding of the vkinder VK bot (repository `andrey0722/vkinder-vk-bot`,
most complete snapshot: `src/vkinder/model/states/*`, `src/vkinder/model/types.py`,
`src/vkinder/view/message.py`) together with proofs about the embedded code.

Conventions:
* Python `int` is embedded as `Int`, `str` as `String`, `None`-able values as
  `Option`.
* Python `%` on integers agrees with Lean's `Int.emod` whenever the modulus is
  positive (both return a result in `[0, modulus)`); only positive moduli occur
  in the code.
* The repository is a collection of divergent snapshots of the same evolving
  design.  Where a name is referenced by the most complete snapshot but its
  definition only survives in an older snapshot (or not at all), the definition
  here is marked `Modelled from the spec:` in its doc string.
-/

/-! ## Basic data model (src/vkinder/model/types.py, src/vkinder/shared_types.py) -/

/-- Human sex designator according to ISO/IEC 5218 (`model/types.py`, `Sex`). -/
inductive Sex where
  | notKnown
  | male
  | female
deriving DecidableEq, Repr

/-- Current state for a particular user (`model/types.py`, `UserState`). -/
inductive UserState where
  | newUser
  | mainMenu
  | searching
  | auth
  | favoriteList
  | blacklist
deriving DecidableEq, Repr

/-- All string tokens acceptable as menu input (`shared_types.py`, `MenuToken`,
extended with the blacklist tokens referenced by `view/menu.py` and the
`model/states` snapshot).  The `AUTH_BEGIN`/`AUTH_FINISHED` tokens belong to the
auth side channel, which is not registered in the state table of
`model/states/state_manager.py` and has no display strings in `view/strings.py`;
they are omitted from the embedding. -/
inductive MenuToken where
  | search
  | profile
  | favorite
  | blacklist
  | help
  | prev
  | next
  | deleteFavorite
  | deleteBlacklist
  | addFavorite
  | addBlacklist
  | goBack
deriving DecidableEq, Repr

/-- Value of the `enum.StrEnum` member (`enum.auto()` lowercases the member
name), used as `TextButton.text` payload by the states. -/
def MenuToken.val : MenuToken → String
  | .search => "search"
  | .profile => "profile"
  | .favorite => "favorite"
  | .blacklist => "blacklist"
  | .help => "help"
  | .prev => "prev"
  | .next => "next"
  | .deleteFavorite => "delete_favorite"
  | .deleteBlacklist => "delete_blacklist"
  | .addFavorite => "add_favorite"
  | .addBlacklist => "add_blacklist"
  | .goBack => "go_back"

/-- All embedded menu tokens, used for string-to-token parsing. -/
def MenuToken.all : List MenuToken :=
  [.search, .profile, .favorite, .blacklist, .help, .prev, .next,
   .deleteFavorite, .deleteBlacklist, .addFavorite, .addBlacklist, .goBack]

/-- Calendar date, embedding Python `datetime.date`. -/
structure PyDate where
  year : Nat
  month : Nat
  day : Nat
deriving DecidableEq, Repr

/-- User photo descriptor (`shared_types.py`, `Photo`). -/
structure Photo where
  id : Int
  owner_id : Int
  likes : Int
  url : String
deriving DecidableEq, Repr

/-- Media items are photos (`shared_types.py`, `type Media = Photo`). -/
abbrev Media := Photo

/-- Bot button color (`shared_types.py`, `ButtonColor`). -/
inductive ButtonColor where
  | primary
  | secondary
  | negative
  | positive
deriving DecidableEq, Repr

/-- Text button (`shared_types.py`, `TextButton`).  The `payload` field is
always `None` in the embedded states and is omitted. -/
structure TextButton where
  text : String
  color : ButtonColor
deriving DecidableEq, Repr

/-- Button with URL to open (`shared_types.py`, `OpenLinkButton`); `payload`
omitted as above. -/
structure OpenLinkButton where
  text : String
  link : String
deriving DecidableEq, Repr

/-- Button in bot keyboard (`shared_types.py`, `type Button`). -/
inductive Button where
  | text (b : TextButton)
  | openLink (b : OpenLinkButton)
deriving DecidableEq, Repr

/-- Contents of bot keyboard shown to user (`shared_types.py`, `Keyboard`). -/
structure Keyboard where
  one_time : Bool
  inline : Bool
  button_rows : List (List Button)
deriving DecidableEq, Repr

/-- Represents one particular user of the bot (`model/types.py`, `User`). -/
structure User where
  id : Int
  first_name : String
  last_name : String
  sex : Sex
  birthday : Option PyDate
  birthday_raw : Option String
  city_id : Option Int
  city : Option String
  nickname : Option String
  url : String
  online : Bool
  state : UserState
deriving DecidableEq, Repr

/-- User age, number of full years since birth (`model/types.py`,
`User.age`).  The source reads the current date from the system clock; the
embedding takes it as the explicit argument `today`. -/
def User.age (u : User) (today : PyDate) : Option Int :=
  match u.birthday with
  | none => none
  | some b =>
      let raw : Int := (today.year : Int) - (b.year : Int)
      -- Python tuple comparison `(m, d) < (m, d)` is lexicographic
      if today.month < b.month ∨ (today.month = b.month ∧ today.day < b.day) then
        some (raw - 1)
      else some raw

/-- Stores user progress in different modes (`model/types.py`,
`UserProgress`).  Every column is non-nullable; `last_found_id` is embedded as
`Option Int` so that the `is not None` guard of
`model/states/searching.py:480` remains expressible, with the ORM column
default `0` embedded as `some 0` (the schema never produces `none`). -/
structure UserProgress where
  last_state : UserState
  last_found_id : Option Int
  last_favorite_index : Int
  last_favorite_id : Int
  last_blacklist_index : Int
  last_blacklist_id : Int
deriving DecidableEq, Repr

/-- A `UserProgress` row freshly created with the column defaults of
`model/types.py` (lazy creation on first use, per the spec's Progress model). -/
def UserProgress.fresh : UserProgress :=
  { last_state := .mainMenu
    last_found_id := some 0
    last_favorite_index := 0
    last_favorite_id := 0
    last_blacklist_index := 0
    last_blacklist_id := 0 }

/-- Sort order for a user search (`UserSortOrder`, referenced by
`model/states/searching.py`; the defining snapshot of `shared_types.py` is
missing).  Modelled from the spec: "a sort criterion (most-relevant vs
newest)". -/
inductive UserSortOrder where
  | relevant
  | newest
deriving DecidableEq, Repr

/-- User search parameters (`shared_types.py`, `UserSearchQuery`), extended
with the `sort` field assigned by
`model/states/searching.py:_request_new_search_results`. -/
structure UserSearchQuery where
  sex : Option Sex
  city_id : Option Int
  online : Option Bool
  has_photo : Option Bool
  age_min : Option Int
  age_max : Option Int
  sort : Option UserSortOrder
deriving DecidableEq, Repr

/-! ## Responses (src/vkinder/shared_types.py) -/

/-- Response types without parameters: the `ResponseTypesGeneric` literal
union, restricted to the types renderable by the `_GENERIC_TO_TEXT` table of
`view/message.py` (the auth responses belong to the omitted auth side channel
and have no rendering there). -/
inductive ResponseTypesGeneric where
  | botError
  | unknownCommand
  | selectMenu
  | userSexMissing
  | userCityMissing
  | userBirthdayMissing
  | searchFailed
  | searchError
  | addedToFavorite
  | addToFavoriteFailed
  | favoriteListFailed
  | favoriteListEmpty
  | addedToBlacklist
  | addToBlacklistFailed
  | blacklistFailed
  | blacklistEmpty
  | photoFailed
deriving DecidableEq, Repr

/-- Response types carrying a `user` parameter (`ResponseTypesWithUser`). -/
inductive ResponseTypesWithUser where
  | greetNewUser
  | searchResult
  | yourProfile
deriving DecidableEq, Repr

/-- Response types carrying `user`, `index` and `total` parameters
(`ResponseTypesWithUserIndex`, extended with `BLACKLIST_RESULT` referenced by
`view/message.py` and `model/states/blacklist.py`). -/
inductive ResponseTypesWithUserIndex where
  | favoriteResult
  | blacklistResult
deriving DecidableEq, Repr

/-- Bot response to user (`shared_types.py`, `type Response`): the tagged union
of the response dataclasses, each carrying its `allow_squash` flag. -/
inductive Response where
  | generic (type : ResponseTypesGeneric) (allow_squash : Bool)
  | withUser (type : ResponseTypesWithUser) (user : User) (allow_squash : Bool)
  | withUserIndex (type : ResponseTypesWithUserIndex) (user : User)
      (index : Int) (total : Int) (allow_squash : Bool)
  | withText (text : String) (allow_squash : Bool)
  | withMenuOptions (menu_options : List MenuToken) (allow_squash : Bool)
  | withKeyboard (keyboard : Keyboard) (allow_squash : Bool)
  | withMedia (media : List Media) (allow_squash : Bool)
deriving DecidableEq, Repr

/-- The `allow_squash` flag common to every response dataclass. -/
def Response.allowSquash : Response → Bool
  | .generic _ s => s
  | .withUser _ _ s => s
  | .withUserIndex _ _ _ _ s => s
  | .withText _ s => s
  | .withMenuOptions _ s => s
  | .withKeyboard _ s => s
  | .withMedia _ s => s

namespace ResponseFactory

/-- `ResponseFactory.unknown_command` (`shared_types.py`). -/
def unknown_command (allow_squash : Bool) : Response :=
  .generic .unknownCommand allow_squash

/-- `ResponseFactory.greet_new_user` (`shared_types.py`). -/
def greet_new_user (user : User) (allow_squash : Bool) : Response :=
  .withUser .greetNewUser user allow_squash

/-- `ResponseFactory.menu_help` (`shared_types.py`). -/
def menu_help (menu_options : List MenuToken) (allow_squash : Bool) : Response :=
  .withMenuOptions menu_options allow_squash

/-- `ResponseFactory.select_menu` (`shared_types.py`). -/
def select_menu (allow_squash : Bool) : Response :=
  .generic .selectMenu allow_squash

/-- `ResponseFactory.user_sex_missing` (`shared_types.py`). -/
def user_sex_missing (allow_squash : Bool) : Response :=
  .generic .userSexMissing allow_squash

/-- `ResponseFactory.user_city_missing` (`shared_types.py`). -/
def user_city_missing (allow_squash : Bool) : Response :=
  .generic .userCityMissing allow_squash

/-- `ResponseFactory.user_birthday_missing` (`shared_types.py`). -/
def user_birthday_missing (allow_squash : Bool) : Response :=
  .generic .userBirthdayMissing allow_squash

/-- `ResponseFactory.search_failed` (`shared_types.py`). -/
def search_failed (allow_squash : Bool) : Response :=
  .generic .searchFailed allow_squash

/-- `ResponseFactory.search_error` (`shared_types.py`). -/
def search_error (allow_squash : Bool) : Response :=
  .generic .searchError allow_squash

/-- `ResponseFactory.search_result` (`shared_types.py`). -/
def search_result (profile : User) (allow_squash : Bool) : Response :=
  .withUser .searchResult profile allow_squash

/-- `ResponseFactory.added_to_favorite` (`shared_types.py`). -/
def added_to_favorite (allow_squash : Bool) : Response :=
  .generic .addedToFavorite allow_squash

/-- `ResponseFactory.add_to_favorite_failed` (`shared_types.py`). -/
def add_to_favorite_failed (allow_squash : Bool) : Response :=
  .generic .addToFavoriteFailed allow_squash

/-- `ResponseFactory.favorite_list_failed` (`shared_types.py`). -/
def favorite_list_failed (allow_squash : Bool) : Response :=
  .generic .favoriteListFailed allow_squash

/-- `ResponseFactory.favorite_list_empty` (`shared_types.py`). -/
def favorite_list_empty (allow_squash : Bool) : Response :=
  .generic .favoriteListEmpty allow_squash

/-- `ResponseFactory.favorite_result` (`shared_types.py`). -/
def favorite_result (profile : User) (index : Int) (total : Int)
    (allow_squash : Bool) : Response :=
  .withUserIndex .favoriteResult profile index total allow_squash

/-- `ResponseFactory.added_to_blacklist` (referenced by
`model/states/searching.py`; factory body modelled after its favorite
counterpart). -/
def added_to_blacklist (allow_squash : Bool) : Response :=
  .generic .addedToBlacklist allow_squash

/-- `ResponseFactory.add_to_blacklist_failed` (referenced by
`model/states/searching.py` and `model/states/favorite_list.py`). -/
def add_to_blacklist_failed (allow_squash : Bool) : Response :=
  .generic .addToBlacklistFailed allow_squash

/-- `ResponseFactory.blacklist_failed` (referenced by
`model/states/blacklist.py`). -/
def blacklist_failed (allow_squash : Bool) : Response :=
  .generic .blacklistFailed allow_squash

/-- `ResponseFactory.blacklist_empty` (referenced by
`model/states/blacklist.py`). -/
def blacklist_empty (allow_squash : Bool) : Response :=
  .generic .blacklistEmpty allow_squash

/-- `ResponseFactory.blacklist_result` (referenced by
`model/states/blacklist.py`). -/
def blacklist_result (profile : User) (index : Int) (total : Int)
    (allow_squash : Bool) : Response :=
  .withUserIndex .blacklistResult profile index total allow_squash

/-- `ResponseFactory.text` (`shared_types.py`). -/
def text (text : String) (allow_squash : Bool) : Response :=
  .withText text allow_squash

/-- `ResponseFactory.keyboard` (`shared_types.py`). -/
def keyboard (keyboard : Keyboard) (allow_squash : Bool) : Response :=
  .withKeyboard keyboard allow_squash

/-- `ResponseFactory.attach_media` (`shared_types.py`). -/
def attach_media (media : List Media) (allow_squash : Bool) : Response :=
  .withMedia media allow_squash

/-- `ResponseFactory.photo_failed` (`shared_types.py`). -/
def photo_failed (allow_squash : Bool) : Response :=
  .generic .photoFailed allow_squash

/-- `ResponseFactory.your_profile` (`shared_types.py`). -/
def your_profile (user : User) (allow_squash : Bool) : Response :=
  .withUser .yourProfile user allow_squash

end ResponseFactory

/-! ## Localization strings (src/vkinder/view/strings.py)

The snapshot of `strings.py` in the repository predates the blacklist feature;
strings referenced by `view/message.py` but missing from that snapshot are
marked `Modelled from the spec:` (the spec treats localization tables as
external plumbing, so only their existence matters, not their wording). -/

namespace Strings

/-- Display strings of the menu tokens (`strings.py`, `MenuTokenStr`); the
three blacklist entries are modelled from the spec (missing from the
snapshot). -/
def menuTokenStr : MenuToken → String
  | .search => "🔍 Поиск"
  | .profile => "👤 Профиль"
  | .favorite => "💘 Избранное"
  | .blacklist => "🚫 Чёрный список"
  | .help => "❓ Помощь"
  | .prev => "⏪ Предыдущая анкета"
  | .next => "⏭️ Следующая анкета"
  | .deleteFavorite => "❌ Удалить из избранного"
  | .deleteBlacklist => "❌ Удалить из чёрного списка"
  | .addFavorite => "💘 Добавить в избранное"
  | .addBlacklist => "🚫 Добавить в чёрный список"
  | .goBack => "🏁 Вернуться в главное меню"

/-- Per-command help strings (`strings.py`, `HELP_MAP`); blacklist entries
modelled from the spec (missing from the snapshot). -/
def helpMap : MenuToken → String
  | .search => "поиск анкет"
  | .profile => "твоя анкета"
  | .favorite => "твой список избранных анкет"
  | .blacklist => "твой чёрный список анкет"
  | .help => "справка по командам (данное сообщение)"
  | .prev => "перейти к предыдущей анкете"
  | .next => "перейти к следующей анкете"
  | .deleteFavorite => "убрать анкету из списка избранных"
  | .deleteBlacklist => "убрать анкету из чёрного списка"
  | .addFavorite => "добавить анкету в список избранных"
  | .addBlacklist => "добавить анкету в чёрный список"
  | .goBack => "завершить и вернуться в главное меню"

/-- `Strings.BOT_ERROR`; referenced by `view/message.py`, missing from the
`strings.py` snapshot, modelled from the spec. -/
def BOT_ERROR : String := "⚠ Внутренняя ошибка бота."

/-- `Strings.UNKNOWN_COMMAND`. -/
def UNKNOWN_COMMAND : String := "Не понял команду. Нажми " ++ menuTokenStr .help

/-- `Strings.SELECT_ACTION`. -/
def SELECT_ACTION : String := "Выбери действие:"

/-- `Strings.USER_SEX_MISSING`. -/
def USER_SEX_MISSING : String :=
  "🧐 Вы не указали свой пол в профиле, найти пользователей не " ++
  "получится. Укажите свой пол и повторите попытку!"

/-- `Strings.USER_CITY_MISSING`. -/
def USER_CITY_MISSING : String :=
  "🧐 Вы не указали свой город в профиле, найти пользователей не " ++
  "получится. Укажите свой город и повторите попытку!"

/-- `Strings.USER_BIRTHDAY_MISSING`. -/
def USER_BIRTHDAY_MISSING : String :=
  "🧐 Вы не указали свою дату и год рождения в профиле, найти " ++
  "пользователей не получится. Укажите свой город и повторите попытку!"

/-- `Strings.SEARCH_FAILED`. -/
def SEARCH_FAILED : String :=
  "😔 Не удалось найти подходящих пользователей. Попробуй ещё раз!"

/-- `Strings.SEARCH_ERROR`. -/
def SEARCH_ERROR : String :=
  "⚠ Поиск не работает по техническим причинам. Повторите попытку позднее."

/-- `Strings.ADDED_TO_FAVORITE`. -/
def ADDED_TO_FAVORITE : String := "➕ Профиль добавлен в избранное!"

/-- `Strings.ADD_TO_FAVORITE_FAILED`. -/
def ADD_TO_FAVORITE_FAILED : String := "⚠ Ошибка добавления в избранное!"

/-- `Strings.FAVORITE_LIST_FAILED`. -/
def FAVORITE_LIST_FAILED : String := "⚠ Ошибка загрузки списка избранных анкет!"

/-- `Strings.FAVORITE_LIST_EMPTY`. -/
def FAVORITE_LIST_EMPTY : String :=
  "Список избранных анкет пока пуст, используйте команду " ++
  menuTokenStr .addFavorite ++ ", чтобы его наполнить."

/-- `Strings.ADDED_TO_BLACKLIST`; modelled from the spec (missing from the
snapshot). -/
def ADDED_TO_BLACKLIST : String := "🚫 Профиль добавлен в чёрный список!"

/-- `Strings.ADD_TO_BLACKLIST_FAILED`; modelled from the spec (missing from
the snapshot). -/
def ADD_TO_BLACKLIST_FAILED : String := "⚠ Ошибка добавления в чёрный список!"

/-- `Strings.BLACKLIST_FAILED`; modelled from the spec (missing from the
snapshot). -/
def BLACKLIST_FAILED : String := "⚠ Ошибка загрузки чёрного списка анкет!"

/-- `Strings.BLACKLIST_EMPTY`; modelled from the spec (missing from the
snapshot). -/
def BLACKLIST_EMPTY : String := "Чёрный список анкет пока пуст."

/-- `Strings.NOT_SPECIFIED`. -/
def NOT_SPECIFIED : String := "Не указано"

/-- `Strings.PHOTO_URLS_FAILED`. -/
def PHOTO_URLS_FAILED : String := "😔 Ссылки на фото недоступны"

/-- `Strings.HEADING_USER_PROFILE`. -/
def HEADING_USER_PROFILE : String := "Анекта пользователя: "

/-- `Strings.HEADING_YOUR_PROFILE`. -/
def HEADING_YOUR_PROFILE : String := "Твоя анкета: "

/-- `Strings.PARAGRAPH_SEPARATOR`. -/
def PARAGRAPH_SEPARATOR : String := "\n\n"

/-- `Strings.LINE_SEPARATOR` (20 box-drawing dashes). -/
def LINE_SEPARATOR : String := "────────────────────"

/-- `Strings.GREETING_NEW_USER` applied to a name (`str.format`). -/
def greetingNewUser (name : String) : String :=
  "🎉🎉🎉 Добро пожаловать, " ++ name ++ "! 🎉🎉🎉"

/-- `Strings.USER_NAME_TEMPLATE` applied to an id. -/
def userNameFromId (id : Int) : String := "id" ++ toString id

/-- `Strings.HEADING_FAVORITE_TEMPLATE` applied to index and total. -/
def headingFavorite (index total : Int) : String :=
  "Избранная анекта (" ++ toString index ++ " / " ++ toString total ++ "):"

/-- `Strings.HEADING_BLACKLIST_TEMPLATE` applied to index and total;
modelled from the spec (missing from the snapshot). -/
def headingBlacklist (index total : Int) : String :=
  "Анкета в чёрном списке (" ++ toString index ++ " / " ++ toString total ++ "):"

/-- `Strings.HELP_RECORD_TEMPLATE` applied to command and help strings. -/
def helpRecord (command help : String) : String := command ++ " - " ++ help

/-- `Strings.HELP_RECORD_SEPARATOR`; referenced by `view/format.py`, missing
from the `strings.py` snapshot, modelled from the spec (one help record per
line). -/
def HELP_RECORD_SEPARATOR : String := "\n"

/-- `SEX_MAP` (`strings.py`). -/
def sexMap : Sex → String
  | .notKnown => NOT_SPECIFIED
  | .male => "Мужской"
  | .female => "Женский"

/-- `BOOL_MAP` (`strings.py`). -/
def boolMap : Bool → String
  | false => "Нет"
  | true => "Да"

end Strings

/-! ## View helpers (src/vkinder/view/menu.py, src/vkinder/view/format.py) -/

/-- Python `s or fallback` on strings: the empty string is falsy. -/
def orStr (s fallback : String) : String := if s = "" then fallback else s

/-- Parse a string back into the menu token whose `StrEnum` value it is
(`menu.py`, `MenuToken(text)` constructor lookup). -/
def parseMenuToken (s : String) : Option MenuToken :=
  MenuToken.all.find? (fun t => t.val == s)

/-- `view/menu.py`, `render_menu_command`: replace a menu token value with its
display string, leaving other text unchanged. -/
def renderMenuCommand (s : String) : String :=
  match parseMenuToken s with
  | some t => Strings.menuTokenStr t
  | none => s

/-- `view/menu.py`, `render_keyboard`: replace each button text (a menu token
value) with its display string.  The source mutates the keyboard in place; the
embedding returns the updated keyboard. -/
def renderKeyboard (kb : Keyboard) : Keyboard :=
  { kb with
    button_rows := kb.button_rows.map (fun row =>
      row.map (fun b =>
        match b with
        | .text tb => .text { tb with text := renderMenuCommand tb.text }
        | .openLink lb => .openLink { lb with text := renderMenuCommand lb.text })) }

/-- `view/format.py`, `format_help`. -/
def formatHelp (menu_options : List MenuToken) : String :=
  String.intercalate Strings.HELP_RECORD_SEPARATOR
    (menu_options.map (fun token =>
      Strings.helpRecord (Strings.menuTokenStr token) (Strings.helpMap token)))

/-- `view/format.py`, `get_user_name`: first name, or `id<N>` when the first
name is empty (Python `or` on a falsy string). -/
def getUserName (user : User) : String :=
  orStr user.first_name (Strings.userNameFromId user.id)

/-- Zero-padded two-digit decimal (for `strftime` `%d`/`%m`). -/
def pad2 (n : Nat) : String := if n < 10 then "0" ++ toString n else toString n

/-- Zero-padded four-digit decimal (for `strftime` `%Y`). -/
def pad4 (n : Nat) : String :=
  if n < 10 then "000" ++ toString n
  else if n < 100 then "00" ++ toString n
  else if n < 1000 then "0" ++ toString n
  else toString n

/-- `datetime.date.strftime(BIRTHDAY_FORMAT)` with `BIRTHDAY_FORMAT` being
`%d.%m.%Y` (`strings.py`). -/
def strftimeBirthday (d : PyDate) : String :=
  pad2 d.day ++ "." ++ pad2 d.month ++ "." ++ pad4 d.year

/-- `view/format.py`, `format_profile`.  The `age` placeholder uses Python
`user.age or NOT_SPECIFIED`, where both `None` and `0` are falsy.  Takes
`today` explicitly because `User.age` reads the clock in the source. -/
def formatProfile (today : PyDate) (user : User) (heading : String) : String :=
  -- birthday = user.birthday and user.birthday.strftime(BIRTHDAY_FORMAT)
  -- birthday = birthday or user.birthday_raw
  let birthday : Option String :=
    match user.birthday with
    | some b => some (strftimeBirthday b)
    | none => user.birthday_raw
  let birthdayStr :=
    match birthday with
    | some s => orStr s Strings.NOT_SPECIFIED
    | none => Strings.NOT_SPECIFIED
  let ageStr :=
    match user.age today with
    | some a => if a = 0 then Strings.NOT_SPECIFIED else toString a
    | none => Strings.NOT_SPECIFIED
  heading ++ "\n" ++
  Strings.LINE_SEPARATOR ++ "\n" ++
  "Имя: " ++ orStr user.first_name Strings.NOT_SPECIFIED ++ "\n" ++
  "Фамилия: " ++ orStr user.last_name Strings.NOT_SPECIFIED ++ "\n" ++
  "Ник: " ++ orStr (user.nickname.getD "") Strings.NOT_SPECIFIED ++ "\n" ++
  "Пол: " ++ Strings.sexMap user.sex ++ "\n" ++
  "Дата рождения: " ++ birthdayStr ++ "\n" ++
  "Возраст: " ++ ageStr ++ "\n" ++
  "Город: " ++ orStr (user.city.getD "") Strings.NOT_SPECIFIED ++ "\n" ++
  "ID: " ++ toString user.id ++ "\n" ++
  "Ссылка: " ++ user.url ++ "\n" ++
  "Сейчас в сети: " ++ Strings.boolMap user.online ++ "\n"

/-! ## Message rendering (src/vkinder/view/message.py) -/

/-- Output message data from a bot to a user (`shared_types.py`,
`OutputMessage`). -/
structure OutputMessage where
  user : User
  text : String
  keyboard : Option Keyboard
  media : List Media
deriving DecidableEq, Repr

/-- `view/message.py`, `create_message`. -/
def createMessage (user : User) (text : String) (keyboard : Option Keyboard)
    (media : List Media) : OutputMessage :=
  { user := user, text := text, keyboard := keyboard, media := media }

/-- `view/message.py`, `squash_message`: join paragraphs with the fixed
separator. -/
def squashMessage (user : User) (paragraphs : List String)
    (keyboard : Option Keyboard) (media : List Media) : OutputMessage :=
  createMessage user (String.intercalate Strings.PARAGRAPH_SEPARATOR paragraphs)
    keyboard media

/-- `view/message.py`, `_GENERIC_TO_TEXT` lookup table. -/
def genericToText : ResponseTypesGeneric → String
  | .botError => Strings.BOT_ERROR
  | .unknownCommand => Strings.UNKNOWN_COMMAND
  | .selectMenu => Strings.SELECT_ACTION
  | .userSexMissing => Strings.USER_SEX_MISSING
  | .userCityMissing => Strings.USER_CITY_MISSING
  | .userBirthdayMissing => Strings.USER_BIRTHDAY_MISSING
  | .searchFailed => Strings.SEARCH_FAILED
  | .searchError => Strings.SEARCH_ERROR
  | .addedToFavorite => Strings.ADDED_TO_FAVORITE
  | .addToFavoriteFailed => Strings.ADD_TO_FAVORITE_FAILED
  | .favoriteListFailed => Strings.FAVORITE_LIST_FAILED
  | .favoriteListEmpty => Strings.FAVORITE_LIST_EMPTY
  | .addedToBlacklist => Strings.ADDED_TO_BLACKLIST
  | .addToBlacklistFailed => Strings.ADD_TO_BLACKLIST_FAILED
  | .blacklistFailed => Strings.BLACKLIST_FAILED
  | .blacklistEmpty => Strings.BLACKLIST_EMPTY
  | .photoFailed => Strings.PHOTO_URLS_FAILED

/-- `view/message.py`, `render_response` (the `singledispatch` family
`_render_generic` .. `_render_with_media` combined over the tagged union).
Takes `today` explicitly because profile formatting derives the age from the
clock in the source. -/
def renderResponse (today : PyDate) (response : Response) (user : User) :
    OutputMessage :=
  match response with
  | .generic t _ => createMessage user (genericToText t) none []
  | .withUser t profile _ =>
      match t with
      | .greetNewUser =>
          createMessage user (Strings.greetingNewUser (getUserName profile)) none []
      | .searchResult =>
          createMessage user
            (formatProfile today profile Strings.HEADING_USER_PROFILE) none []
      | .yourProfile =>
          createMessage user
            (formatProfile today profile Strings.HEADING_YOUR_PROFILE) none []
  | .withUserIndex t profile index total _ =>
      match t with
      | .favoriteResult =>
          createMessage user
            (formatProfile today profile (Strings.headingFavorite index total)) none []
      | .blacklistResult =>
          createMessage user
            (formatProfile today profile (Strings.headingBlacklist index total)) none []
  | .withText text _ => createMessage user text none []
  | .withMenuOptions opts _ => createMessage user (formatHelp opts) none []
  | .withKeyboard kb _ => createMessage user "" (some (renderKeyboard kb)) []
  | .withMedia media _ => createMessage user "" none media

/-- The loop body of `view/message.py`, `render_messages`, with the mutable
accumulator (`keyboard`, `paragraphs`, `media`) made explicit.  Note two
source subtleties kept here: a squashable response contributes a paragraph
only when its rendered text is nonempty (`if message.text:`), and on a
non-squashable response the accumulator is flushed and reset only when
paragraphs are pending (`if paragraphs:`). -/
def renderLoop (today : PyDate) (user : User) :
    List Response → Option Keyboard → List String → List Media →
    List OutputMessage
  | [], kb, pars, med =>
      if pars = [] then [] else [squashMessage user pars kb med]
  | r :: rest, kb, pars, med =>
      if r.allowSquash = false then
        if pars = [] then
          renderResponse today r user :: renderLoop today user rest kb pars med
        else
          squashMessage user pars kb med ::
            renderResponse today r user :: renderLoop today user rest none [] []
      else
        let m := renderResponse today r user
        let kb2 := match m.keyboard with | some k => some k | none => kb
        let pars2 := if m.text = "" then pars else pars ++ [m.text]
        let med2 := med ++ m.media
        renderLoop today user rest kb2 pars2 med2

/-- `view/message.py`, `render_messages`: squash a response stream into
outbound messages. -/
def renderMessages (today : PyDate) (user : User) (responses : List Response) :
    List OutputMessage :=
  renderLoop today user responses none [] []

/-! ## Store and session state (src/vkinder/model/db.py, spec section 3)

The `db.py` snapshot in the repository predates the blacklist feature and the
`UserProgress` table; the operations the `model/states` snapshot calls on
`DatabaseSession` are embedded as pure functions on a per-user `ModelState`.
Favorite and blacklist rows are ordered by their `created_at` column
(`get_favorite_index` selects `order_by(created_at).offset(index)`), which
equals insertion order, so both lists are kept in insertion order. -/

/-- `model/states/searching.py`, `SearchCacheRecord`. -/
structure SearchCacheRecord where
  profiles : List Int
  expire_time : Nat
deriving DecidableEq, Repr

/-- `SearchCacheRecord.CACHE_EXPIRE_DELAY = timedelta(minutes=5)`, in seconds. -/
def SearchCacheRecord.CACHE_EXPIRE_DELAY : Nat := 300

/-- The mutable per-user world visible to a state handler: the session-bound
`User` row (aliased by `message.user`), the lazily created `UserProgress` row
(aliased by `message.progress`), the user's favorite and blacklist rows in
`created_at` order, and the in-memory search cache dictionary
(`SearchingState._search_cache`, keyed by user id). -/
structure ModelState where
  user : User
  progress : UserProgress
  favorites : List Int
  blacklist : List Int
  cache : List (Int × SearchCacheRecord)
deriving DecidableEq, Repr

/-- `DatabaseSession.delete_favorite`: delete the favorite row with this
profile id (`db.py`). -/
def ModelState.deleteFavorite (σ : ModelState) (profile_id : Int) : ModelState :=
  { σ with favorites := σ.favorites.filter (fun x => x != profile_id) }

/-- `DatabaseSession.add_favorite`.  Modelled from the spec: Favorite is a set
keyed by (user id, profile id) — the table's composite primary key forbids a
duplicate row, so inserting a present key leaves the set unchanged; a new key
is appended (its `created_at` is the newest). -/
def ModelState.addFavorite (σ : ModelState) (profile_id : Int) : ModelState :=
  if σ.favorites.contains profile_id then σ
  else { σ with favorites := σ.favorites ++ [profile_id] }

/-- `DatabaseSession.favorite_exists` (`db.py`). -/
def ModelState.favoriteExists (σ : ModelState) (profile_id : Int) : Bool :=
  σ.favorites.contains profile_id

/-- `DatabaseSession.delete_blacklist`.  Modelled from the spec: Blacklist
mirrors Favorite (the `db.py` snapshot predates the blacklist feature). -/
def ModelState.deleteBlacklist (σ : ModelState) (profile_id : Int) : ModelState :=
  { σ with blacklist := σ.blacklist.filter (fun x => x != profile_id) }

/-- `DatabaseSession.add_blacklist`.  Modelled from the spec: set insert, as
for `addFavorite`. -/
def ModelState.addBlacklist (σ : ModelState) (profile_id : Int) : ModelState :=
  if σ.blacklist.contains profile_id then σ
  else { σ with blacklist := σ.blacklist ++ [profile_id] }

/-- `DatabaseSession.blacklist_exists`.  Modelled from the spec, mirroring
`favorite_exists`. -/
def ModelState.blacklistExists (σ : ModelState) (profile_id : Int) : Bool :=
  σ.blacklist.contains profile_id

/-! ## Effect monad for state handlers

A state handler is a Python generator that lazily yields `Response` objects
while calling the profile provider and committing database transactions.  The
embedding runs a handler to completion and records the ordered trace of its
observable events; a raised `ProfileProviderError` (or the
`NotImplementedError` of `StateManager.get_state`) aborts the handler but keeps
the events and commits that already happened, exactly as consuming the
generator would. -/

/-- One observable event of a handler run. -/
inductive Item where
  | out (r : Response)
  | commit (σ : ModelState)
  | provSearch (q : UserSearchQuery)
  | provProfile (id : Int)
  | provPhotos (id : Int)
deriving DecidableEq, Repr

/-- Exceptions crossing handler boundaries: `ProfileProviderError` and the
`NotImplementedError` of `StateManager.get_state`. -/
inductive PErr where
  | provider
  | notImplemented
deriving DecidableEq, Repr

/-- External world of a handler: the profile provider, the nondeterministic
shuffle of `random.shuffle`, and the clock (`datetime.now`), all fixed for one
run. -/
structure Env where
  profiles : Int → Option User
  photos : Int → Option (List Photo)
  search : UserSearchQuery → List Int
  shuffle : List Int → List Int
  today : PyDate
  now : Nat

/-- Handler computations: explicit environment and state passing plus an event
trace. -/
def M (α : Type) : Type :=
  Env → ModelState → Except PErr α × ModelState × List Item

instance : Monad M where
  pure a := fun _ σ => (Except.ok a, σ, [])
  bind x f := fun env σ =>
    match x env σ with
    | (Except.error e, σ2, tr) => (Except.error e, σ2, tr)
    | (Except.ok a, σ2, tr) =>
        match f a env σ2 with
        | (r, σ3, tr2) => (r, σ3, tr ++ tr2)

/-- Yield one response (`yield` in a handler generator). -/
def emitR (r : Response) : M Unit := fun _ σ => (Except.ok (), σ, [Item.out r])

/-- Read the session-bound user data (a read-only `with session.begin()`). -/
def getState : M ModelState := fun _ σ => (Except.ok σ, σ, [])

/-- Read the external environment. -/
def readEnv : M Env := fun env σ => (Except.ok env, σ, [])

/-- Run a mutating `with session.begin()` block: apply the mutation and record
the committed state. -/
def commitWith (f : ModelState → ModelState) : M Unit :=
  fun _ σ => (Except.ok (), f σ, [Item.commit (f σ)])

/-- Raise an exception. -/
def throwErr {α : Type} (e : PErr) : M α := fun _ σ => (Except.error e, σ, [])

/-- Python `try:`/`except ProfileProviderError:`: on a provider error the
events and commits already produced stay, then the handler branch runs. -/
def catchProviderError {α : Type} (x handler : M α) : M α := fun env σ =>
  match x env σ with
  | (Except.error .provider, σ2, tr) =>
      match handler env σ2 with
      | (r, σ3, tr2) => (r, σ3, tr ++ tr2)
  | other => other

/-- `ProfileProvider.get_user_profile`: returns the profile or raises
`ProfileProviderError`. -/
def getUserProfileP (profile_id : Int) : M User := fun env σ =>
  match env.profiles profile_id with
  | some u => (Except.ok u, σ, [Item.provProfile profile_id])
  | none => (Except.error .provider, σ, [Item.provProfile profile_id])

/-- `ProfileProvider.get_user_photos` (with `sort_by_likes=True, limit=3`):
returns photos or raises `ProfileProviderError`. -/
def getUserPhotosP (profile_id : Int) : M (List Photo) := fun env σ =>
  match env.photos profile_id with
  | some ph => (Except.ok ph, σ, [Item.provPhotos profile_id])
  | none => (Except.error .provider, σ, [Item.provPhotos profile_id])

/-- `ProfileProvider.search_users`: one provider search pass for a query
(whose `sort` field the caller has set). -/
def searchUsersP (q : UserSearchQuery) : M (List Int) := fun env σ =>
  (Except.ok (env.search q), σ, [Item.provSearch q])

/-! ## Search cache (src/vkinder/model/states/searching.py, lines 308-386) -/

/-- Dictionary lookup on the cache association list. -/
def cacheFind (cache : List (Int × SearchCacheRecord)) (user_id : Int) :
    Option SearchCacheRecord :=
  (cache.find? (fun p => p.1 == user_id)).map (fun p => p.2)

/-- Dictionary key deletion (`del self._search_cache[user_id]`). -/
def cacheErase (cache : List (Int × SearchCacheRecord)) (user_id : Int) :
    List (Int × SearchCacheRecord) :=
  cache.filter (fun p => p.1 != user_id)

/-- Dictionary assignment (`self._search_cache[user_id] = record`). -/
def cacheSet (cache : List (Int × SearchCacheRecord)) (user_id : Int)
    (record : SearchCacheRecord) : List (Int × SearchCacheRecord) :=
  (user_id, record) :: cacheErase cache user_id

/-- `SearchingState._get_cache_record`: return the user's record unless it is
absent or expired; an expired record is deleted and treated as absent. -/
def getCacheRecord (user_id : Int) : M (Option SearchCacheRecord) :=
  fun env σ =>
    match cacheFind σ.cache user_id with
    | none => (Except.ok none, σ, [])
    | some record =>
        if record.expire_time ≤ env.now then
          (Except.ok none, { σ with cache := cacheErase σ.cache user_id }, [])
        else
          (Except.ok (some record), σ, [])

/-- `SearchingState._save_to_cache`: store the search result with expiry
`now + CACHE_EXPIRE_DELAY`. -/
def saveToCache (user_id : Int) (profiles : List Int) : M Unit :=
  fun env σ =>
    (Except.ok (),
     { σ with cache := (cacheSet σ.cache user_id
         ⟨profiles, env.now + SearchCacheRecord.CACHE_EXPIRE_DELAY⟩) },
     [])

/-- `SearchingState._request_new_search_results`: two provider search passes
(most relevant, then newest) concatenated. -/
def requestNewSearchResults (_user_id : Int) (q : UserSearchQuery) :
    M (List Int) := do
  let ps1 ← searchUsersP { q with sort := some .relevant }
  let ps2 ← searchUsersP { q with sort := some .newest }
  pure (ps1 ++ ps2)

/-- `SearchingState._get_search_results`: serve from a live cache record, else
perform a new search and cache it. -/
def getSearchResults (user_id : Int) (q : UserSearchQuery) : M (List Int) := do
  match ← getCacheRecord user_id with
  | some record => pure record.profiles
  | none => do
      let profiles ← requestNewSearchResults user_id q
      saveToCache user_id profiles
      pure profiles

/-! ## Search query construction (src/vkinder/model/states/searching.py) -/

/-- `SEARCH_AGE_MAX_GAP` (`searching.py`). -/
def SEARCH_AGE_MAX_GAP : Int := 1

/-- `SEARCH_SEX_MAP` (`searching.py`): the opposite sex, undefined for
`NOT_KNOWN` (a `KeyError` in the source). -/
def SEARCH_SEX_MAP : Sex → Option Sex
  | .female => some .male
  | .male => some .female
  | .notKnown => none

/-- `FILTER_BY_SEX` (`searching.py`). -/
def FILTER_BY_SEX : Bool := true

/-- `FILTER_BY_CITY` (`searching.py`). -/
def FILTER_BY_CITY : Bool := true

/-- `FILTER_BY_AGE` (`searching.py`). -/
def FILTER_BY_AGE : Bool := true

/-- `FILTER_ONLINE` (`searching.py`). -/
def FILTER_ONLINE : Option Bool := some true

/-- `FILTER_HAS_PHOTO` (`searching.py`). -/
def FILTER_HAS_PHOTO : Option Bool := some true

/-- `SearchingState._get_search_query`: build the query from the user
snapshot, or return the missing-attribute response that aborts the search
(checked in source order: sex, then city, then birthday/age). -/
def getSearchQuery (today : PyDate) (user : User) :
    Sum UserSearchQuery Response :=
  let sexRes : Sum (Option Sex) Response :=
    if FILTER_BY_SEX then
      match SEARCH_SEX_MAP user.sex with
      | some s => .inl (some s)
      | none => .inr (ResponseFactory.user_sex_missing true)
    else .inl none
  match sexRes with
  | .inr r => .inr r
  | .inl sex =>
    let cityRes : Sum (Option Int) Response :=
      if FILTER_BY_CITY then
        match user.city_id with
        | some c => .inl (some c)
        | none => .inr (ResponseFactory.user_city_missing true)
      else .inl none
    match cityRes with
    | .inr r => .inr r
    | .inl city_id =>
      let ageRes : Sum (Option Int × Option Int) Response :=
        if FILTER_BY_AGE then
          match user.age today with
          | some age =>
              .inl (some (max (age - SEARCH_AGE_MAX_GAP) 0),
                    some (age + SEARCH_AGE_MAX_GAP))
          | none => .inr (ResponseFactory.user_birthday_missing true)
        else .inl (none, none)
      match ageRes with
      | .inr r => .inr r
      | .inl (age_min, age_max) =>
          .inl { sex := sex, city_id := city_id, online := FILTER_ONLINE,
                 has_photo := FILTER_HAS_PHOTO, age_min := age_min,
                 age_max := age_max, sort := none }

/-- `SearchingState._is_profile_relevant`: re-validate a (possibly cached)
profile against the query.  A profile with unknown age passes the age window
(the source only checks the window when `profile.age is not None`). -/
def isProfileRelevant (today : PyDate) (profile : User)
    (q : UserSearchQuery) : Bool :=
  (match q.online with
   | some onl => profile.online == onl
   | none => true) &&
  (match q.city_id with
   | some c => profile.city_id == some c
   | none => true) &&
  (match q.sex with
   | some s => profile.sex == s
   | none => true) &&
  (match profile.age today with
   | none => true
   | some a =>
      (match q.age_min with
       | some mn => !(a < mn)
       | none => true) &&
      (match q.age_max with
       | some mx => !(mx < a)
       | none => true))

/-- `SearchingState._TEST_WITH_PHOTO` (`searching.py`). -/
def TEST_WITH_PHOTO : List Int :=
  [752496947, 302526771, 545498940, 5786733, 244591270]

/-- `SearchingState._TEST_RESTRICTED_PHOTO` (`searching.py`). -/
def TEST_RESTRICTED_PHOTO : List Int :=
  [112792352, 13335006, 243006811, 641166997]

/-- `SearchingState._TEST_LIST` (`searching.py`). -/
def TEST_LIST : List Int := TEST_WITH_PHOTO ++ TEST_RESTRICTED_PHOTO

/-- `list(set(profiles))` of `searching.py:251`: deduplication.  CPython's set
iteration order is unspecified; the embedding keeps first occurrences (the
list is immediately shuffled by `random.shuffle` afterwards, so the order is
immaterial). -/
def dedupProfiles (profiles : List Int) : List Int := profiles.eraseDups

/-- `SearchingState._search` iteration: fetch profiles in (shuffled) order and
keep the first one that still satisfies the query; `for`/`else` yields `None`
when none qualifies.  `get_user_profile` may raise, which propagates. -/
def firstRelevantProfile (today : PyDate) (q : UserSearchQuery) :
    List Int → M (Option User)
  | [] => pure none
  | profile_id :: rest => do
      let profile ← getUserProfileP profile_id
      if isProfileRelevant today profile q then pure (some profile)
      else firstRelevantProfile today q rest

/-! ## State keyboards and menu tables (src/vkinder/model/states/...) -/

/-- Input text after `normalize_menu_command`: either a recognized menu token
or raw text (`State.is_command_accepted` checks `isinstance(text, MenuToken)`). -/
inductive InputText where
  | raw (s : String)
  | token (t : MenuToken)
deriving DecidableEq, Repr

/-- `State.is_command_accepted`. -/
def isCommandAccepted (options : List MenuToken) (text : InputText) : Bool :=
  match text with
  | .token t => options.contains t
  | .raw _ => false

namespace MainMenuState

/-- `MainMenuState.KEYBOARD` (`main_menu.py`). -/
def KEYBOARD : Keyboard :=
  { one_time := false, inline := false,
    button_rows :=
      [[.text { text := MenuToken.val .search, color := .primary },
        .text { text := MenuToken.val .profile, color := .secondary }],
       [.text { text := MenuToken.val .favorite, color := .secondary },
        .text { text := MenuToken.val .help, color := .secondary }]] }

/-- `MainMenuState.MENU_OPTIONS` (`main_menu.py`). -/
def MENU_OPTIONS : List MenuToken := [.search, .profile, .favorite, .help]

end MainMenuState

namespace SearchingState

/-- `SearchingState.KEYBOARD` (`searching.py`). -/
def KEYBOARD : Keyboard :=
  { one_time := false, inline := false,
    button_rows :=
      [[.text { text := MenuToken.val .next, color := .primary }],
       [.text { text := MenuToken.val .addFavorite, color := .secondary },
        .text { text := MenuToken.val .addBlacklist, color := .negative }],
       [.text { text := MenuToken.val .goBack, color := .secondary },
        .text { text := MenuToken.val .help, color := .secondary }]] }

/-- `SearchingState.MENU_OPTIONS` (`searching.py`). -/
def MENU_OPTIONS : List MenuToken :=
  [.next, .addFavorite, .addBlacklist, .goBack, .help]

end SearchingState

namespace FavoriteListState

/-- `FavoriteListState.KEYBOARD` (`favorite_list.py`). -/
def KEYBOARD : Keyboard :=
  { one_time := false, inline := false,
    button_rows :=
      [[.text { text := MenuToken.val .prev, color := .secondary },
        .text { text := MenuToken.val .next, color := .secondary }],
       [.text { text := MenuToken.val .deleteFavorite, color := .negative },
        .text { text := MenuToken.val .addBlacklist, color := .negative }],
       [.text { text := MenuToken.val .goBack, color := .secondary },
        .text { text := MenuToken.val .help, color := .secondary }]] }

/-- `FavoriteListState.MENU_OPTIONS` (`favorite_list.py`). -/
def MENU_OPTIONS : List MenuToken :=
  [.prev, .next, .deleteFavorite, .addBlacklist, .goBack, .help]

end FavoriteListState

namespace BlacklistState

/-- `BlacklistState.KEYBOARD` (`blacklist.py`). -/
def KEYBOARD : Keyboard :=
  { one_time := false, inline := false,
    button_rows :=
      [[.text { text := MenuToken.val .prev, color := .secondary },
        .text { text := MenuToken.val .next, color := .secondary }],
       [.text { text := MenuToken.val .addFavorite, color := .negative },
        .text { text := MenuToken.val .deleteBlacklist, color := .negative }],
       [.text { text := MenuToken.val .goBack, color := .secondary },
        .text { text := MenuToken.val .help, color := .secondary }]] }

/-- `BlacklistState.MENU_OPTIONS` (`blacklist.py`). -/
def MENU_OPTIONS : List MenuToken :=
  [.prev, .next, .addFavorite, .deleteBlacklist, .goBack, .help]

end BlacklistState

/-! ## State handlers (src/vkinder/model/states/...)

Each Python handler is a generator `start(session, message)` /
`respond(session, message)`; `message.user` and `message.progress` alias the
session-bound rows held in `ModelState`, so only the normalized input text is
passed explicitly.  `State.show_keyboard` renders to a `KEYBOARD` response
carrying a deep copy of the class keyboard. -/

/-- `State.attach_profile_photos`: best effort — a provider failure degrades
to a `PHOTO_FAILED` notice. -/
def attachProfilePhotos (profile_id : Int) : M Unit :=
  catchProviderError
    (do
      let photos ← getUserPhotosP profile_id
      emitR (ResponseFactory.attach_media photos true))
    (emitR (ResponseFactory.photo_failed true))

/-- `MainMenuState.start` (`main_menu.py`): keyboard, then the menu prompt. -/
def mainMenuStart : M Unit := do
  let _ ← getState
  emitR (ResponseFactory.keyboard MainMenuState.KEYBOARD true)
  emitR (ResponseFactory.select_menu true)

/-- `StateManager._update_user_state` (`state_manager.py:133`): one committed
transaction that saves the previous state into `Progress.last_state` and then
sets the user's new state. -/
def updateUserState (state : UserState) : M Unit :=
  commitWith (fun σ =>
    { σ with
      user := { σ.user with state := state },
      progress := { σ.progress with last_state := σ.user.state } })

/-- `StateManager.start_main_menu` (`state_manager.py:83`), i.e.
`StateManager.start` specialized to `MAIN_MENU`: persist the transition, then
run the main menu's `start`. -/
def startMainMenu : M Unit := do
  updateUserState .mainMenu
  mainMenuStart

/-- `SearchingState._search` (`searching.py:224`).  Note `searching.py:241-242`:
the call to `_get_search_results` is commented out and the raw candidate list
is overridden with `_TEST_LIST`, so this path performs no provider search
pass and does not touch the cache. -/
def searchBody (q : UserSearchQuery) : M Unit := do
  let profiles := TEST_LIST
  let profiles := dedupProfiles profiles
  let σ ← getState
  -- `session.filter_non_blacklisted(user_id, profiles)`; modelled from the
  -- spec (absent from the `db.py` snapshot): drop ids present in the
  -- user's blacklist.
  let profiles := profiles.filter (fun pid => !(σ.blacklist.contains pid))
  let env ← readEnv
  let found ←
    if profiles.isEmpty then pure none
    else firstRelevantProfile env.today q (env.shuffle profiles)
  match found with
  | some profile => do
      -- try/except ModelError around the commit: the embedded store is total,
      -- so the warning-only failure branch is not reachable.
      commitWith (fun σ2 =>
        { σ2 with progress :=
            { σ2.progress with last_found_id := some profile.id } })
      emitR (ResponseFactory.search_result profile true)
      attachProfilePhotos profile.id
  | none => do
      emitR (ResponseFactory.search_failed true)
      startMainMenu

/-- `SearchingState.start` (`searching.py:98`): keyboard; abort to the main
menu with a missing-attribute response when the query cannot be built;
otherwise search, converting a provider error into `SEARCH_ERROR` plus the
main menu. -/
def searchingStart : M Unit := do
  let σ ← getState
  emitR (ResponseFactory.keyboard SearchingState.KEYBOARD true)
  let env ← readEnv
  match getSearchQuery env.today σ.user with
  | .inr resp => do
      emitR resp
      startMainMenu
  | .inl query =>
      catchProviderError (searchBody query)
        (do
          emitR (ResponseFactory.search_error true)
          startMainMenu)

/-- `SearchingState._add_favorite` (`searching.py:463`): when a last-found id
is recorded, delete it from the blacklist and insert it into favorites unless
present (one transaction), then report success; the failure response is
reached when the id is `None` (or on a store error, unreachable in the
embedding). -/
def searchingAddFavorite : M Unit := do
  let σ ← getState
  match σ.progress.last_found_id with
  | some profile_id => do
      commitWith (fun σ2 =>
        let σ3 := σ2.deleteBlacklist profile_id
        if σ3.favoriteExists profile_id then σ3 else σ3.addFavorite profile_id)
      emitR (ResponseFactory.added_to_favorite true)
  | none =>
      emitR (ResponseFactory.add_to_favorite_failed true)

/-- `SearchingState._add_blacklist` (`searching.py:499`): mirror image of
`_add_favorite`. -/
def searchingAddBlacklist : M Unit := do
  let σ ← getState
  match σ.progress.last_found_id with
  | some profile_id => do
      commitWith (fun σ2 =>
        let σ3 := σ2.deleteFavorite profile_id
        if σ3.blacklistExists profile_id then σ3 else σ3.addBlacklist profile_id)
      emitR (ResponseFactory.added_to_blacklist true)
  | none =>
      emitR (ResponseFactory.add_to_blacklist_failed true)

/-- `SearchingState.respond` (`searching.py:125`). -/
def searchingRespond (text : InputText) : M Unit := do
  let _ ← getState
  emitR (ResponseFactory.keyboard SearchingState.KEYBOARD true)
  if !(isCommandAccepted SearchingState.MENU_OPTIONS text) then do
    -- `State.unknown_command`: a non-squashable notice, then replay `start`
    emitR (ResponseFactory.unknown_command false)
    searchingStart
  else
    match text with
    | .token .next => searchingStart
    | .token .addFavorite => do
        searchingAddFavorite
        emitR (ResponseFactory.select_menu true)
    | .token .addBlacklist => do
        searchingAddBlacklist
        emitR (ResponseFactory.select_menu true)
    | .token .goBack => startMainMenu
    | .token .help =>
        emitR (ResponseFactory.menu_help SearchingState.MENU_OPTIONS true)
    | _ => pure ()

/-- `FavoriteListState._show_internal` (`favorite_list.py:187`): normalize the
index modulo the favorite count, fetch the row at that offset, fetch its
profile, save the progress cursor, and show the result with photos.  An empty
list (or missing row) falls back to `FAVORITE_LIST_EMPTY` plus the main
menu. -/
def favShowInternal (idx : Int) : M Unit := do
  let σ ← getState
  let count := σ.favorites.length
  if count = 0 then do
    emitR (ResponseFactory.favorite_list_empty true)
    startMainMenu
  else do
    -- `index = index % count` (Python `%`, positive modulus)
    let index : Int := idx % (count : Int)
    match σ.favorites[index.toNat]? with
    | none => do
        emitR (ResponseFactory.favorite_list_empty true)
        startMainMenu
    | some profile_id => do
        let profile ← getUserProfileP profile_id
        commitWith (fun σ2 =>
          { σ2 with progress :=
              { σ2.progress with
                last_favorite_index := index, last_favorite_id := profile_id } })
        emitR (ResponseFactory.favorite_result profile (index + 1) (count : Int) true)
        attachProfilePhotos profile_id

/-- `FavoriteListState._show` (`favorite_list.py:163`): `_show_internal` with
errors converted to `FAVORITE_LIST_FAILED` plus the main menu (only provider
errors are reachable in the embedding; the store is total). -/
def favShow (idx : Int) : M Unit :=
  catchProviderError (favShowInternal idx)
    (do
      emitR (ResponseFactory.favorite_list_failed true)
      startMainMenu)

/-- `FavoriteListState.start` (`favorite_list.py:53`). -/
def favoriteListStart : M Unit := do
  emitR (ResponseFactory.keyboard FavoriteListState.KEYBOARD true)
  favShow 0

/-- `FavoriteListState._delete_favorite` (`favorite_list.py:106`): delete the
shown record, then re-show at the saved favorite index. -/
def favDeleteFavorite : M Unit := do
  let σ ← getState
  let profile_id := σ.progress.last_favorite_id
  let index := σ.progress.last_favorite_index
  commitWith (fun σ2 => σ2.deleteFavorite profile_id)
  favShow index

/-- `FavoriteListState._add_blacklist` (`favorite_list.py:135`): move the shown
record from favorites to the blacklist in one transaction, then re-show.
Note `favorite_list.py:153`: the re-show index is read from
`progress.last_blacklist_index`, not from the favorite cursor. -/
def favAddBlacklist : M Unit := do
  let σ ← getState
  let profile_id := σ.progress.last_favorite_id
  let index := σ.progress.last_blacklist_index
  commitWith (fun σ2 => (σ2.deleteFavorite profile_id).addBlacklist profile_id)
  favShow index

/-- `FavoriteListState.respond` (`favorite_list.py:63`). -/
def favoriteListRespond (text : InputText) : M Unit := do
  let σ ← getState
  let index := σ.progress.last_favorite_index
  emitR (ResponseFactory.keyboard FavoriteListState.KEYBOARD true)
  if !(isCommandAccepted FavoriteListState.MENU_OPTIONS text) then do
    emitR (ResponseFactory.unknown_command false)
    favoriteListStart
  else
    match text with
    | .token .prev => favShow (index - 1)
    | .token .next => favShow (index + 1)
    | .token .deleteFavorite => favDeleteFavorite
    | .token .addBlacklist => favAddBlacklist
    | .token .goBack => startMainMenu
    | .token .help =>
        emitR (ResponseFactory.menu_help FavoriteListState.MENU_OPTIONS true)
    | _ => pure ()

/-- `BlacklistState._show_internal` (`blacklist.py:187`): blacklist mirror of
the favorite pagination. -/
def blShowInternal (idx : Int) : M Unit := do
  let σ ← getState
  let count := σ.blacklist.length
  if count = 0 then do
    emitR (ResponseFactory.blacklist_empty true)
    startMainMenu
  else do
    let index : Int := idx % (count : Int)
    match σ.blacklist[index.toNat]? with
    | none => do
        emitR (ResponseFactory.blacklist_empty true)
        startMainMenu
    | some profile_id => do
        let profile ← getUserProfileP profile_id
        commitWith (fun σ2 =>
          { σ2 with progress :=
              { σ2.progress with
                last_blacklist_index := index, last_blacklist_id := profile_id } })
        emitR (ResponseFactory.blacklist_result profile (index + 1) (count : Int) true)
        attachProfilePhotos profile_id

/-- `BlacklistState._show` (`blacklist.py:163`). -/
def blShow (idx : Int) : M Unit :=
  catchProviderError (blShowInternal idx)
    (do
      emitR (ResponseFactory.blacklist_failed true)
      startMainMenu)

/-- `BlacklistState.start` (`blacklist.py:53`). -/
def blacklistStart : M Unit := do
  emitR (ResponseFactory.keyboard BlacklistState.KEYBOARD true)
  blShow 0

/-- `BlacklistState._delete_blacklist` (`blacklist.py:106`). -/
def blDeleteBlacklist : M Unit := do
  let σ ← getState
  let profile_id := σ.progress.last_blacklist_id
  let index := σ.progress.last_blacklist_index
  commitWith (fun σ2 => σ2.deleteBlacklist profile_id)
  blShow index

/-- `BlacklistState._add_favorite` (`blacklist.py:135`): move the shown record
from the blacklist to favorites in one transaction, then re-show at the saved
blacklist index. -/
def blAddFavorite : M Unit := do
  let σ ← getState
  let profile_id := σ.progress.last_blacklist_id
  let index := σ.progress.last_blacklist_index
  commitWith (fun σ2 => (σ2.deleteBlacklist profile_id).addFavorite profile_id)
  blShow index

/-- `BlacklistState.respond` (`blacklist.py:63`). -/
def blacklistRespond (text : InputText) : M Unit := do
  let σ ← getState
  let index := σ.progress.last_blacklist_index
  emitR (ResponseFactory.keyboard BlacklistState.KEYBOARD true)
  if !(isCommandAccepted BlacklistState.MENU_OPTIONS text) then do
    emitR (ResponseFactory.unknown_command false)
    blacklistStart
  else
    match text with
    | .token .prev => blShow (index - 1)
    | .token .next => blShow (index + 1)
    | .token .addFavorite => blAddFavorite
    | .token .deleteBlacklist => blDeleteBlacklist
    | .token .goBack => startMainMenu
    | .token .help =>
        emitR (ResponseFactory.menu_help BlacklistState.MENU_OPTIONS true)
    | _ => pure ()

/-- `NewUserState.start`.  Modelled from the spec: the `new_user.py` module is
imported by `model/states/state_manager.py` but missing from the snapshot;
per the spec's FSM, the new-user state greets the user (`GREET_NEW_USER`) and
enters the main menu. -/
def newUserStart : M Unit := do
  let σ ← getState
  emitR (ResponseFactory.greet_new_user σ.user true)
  startMainMenu

/-- `StateManager.start` (`state_manager.py:63`): persist the transition via
`_update_user_state`, look up the state object (`get_state` raises
`NotImplementedError` for a state missing from the table — `AUTH` is not
registered), and run its `start` handler. -/
def stateManagerStart (user_state : UserState) : M Unit := do
  updateUserState user_state
  match user_state with
  | .newUser => newUserStart
  | .mainMenu => mainMenuStart
  | .searching => searchingStart
  | .favoriteList => favoriteListStart
  | .blacklist => blacklistStart
  | .auth => throwErr .notImplemented

/-! ## Run projections -/

/-- Result value of a handler run. -/
def valueOf {α : Type} (m : M α) (env : Env) (σ : ModelState) :
    Except PErr α := (m env σ).1

/-- Final model state of a handler run. -/
def finalState {α : Type} (m : M α) (env : Env) (σ : ModelState) :
    ModelState := (m env σ).2.1

/-- Ordered event trace of a handler run. -/
def traceOf {α : Type} (m : M α) (env : Env) (σ : ModelState) :
    List Item := (m env σ).2.2

/-- The responses yielded during a run, in order. -/
def outputsOf {α : Type} (m : M α) (env : Env) (σ : ModelState) :
    List Response :=
  (traceOf m env σ).filterMap (fun i =>
    match i with
    | .out r => some r
    | _ => none)

/-- Provider search passes recorded in a trace. -/
def searchPassesOf (tr : List Item) : List UserSearchQuery :=
  tr.filterMap (fun i =>
    match i with
    | .provSearch q => some q
    | _ => none)

/-- Whether a trace contains any profile-provider interaction at all. -/
def hasProviderItem (tr : List Item) : Bool :=
  tr.any (fun i =>
    match i with
    | .provSearch _ => true
    | .provProfile _ => true
    | .provPhotos _ => true
    | _ => false)

/-! ## Concrete fixtures for witnesses and counterexamples -/

/-- A fixed date for runs that read the clock. -/
def cToday : PyDate := { year := 2026, month := 10, day := 12 }

/-- A user with a complete profile, currently in the searching state. -/
def cUserS : User :=
  { id := 1, first_name := "Ivan", last_name := "Petrov", sex := .male,
    birthday := some { year := 1996, month := 5, day := 1 },
    birthday_raw := some "1.5.1996", city_id := some 42, city := some "Moscow",
    nickname := none, url := "vk.com/id1", online := true, state := .searching }

/-- A user who has not specified their sex. -/
def cUserNoSex : User := { cUserS with sex := .notKnown }

/-- A candidate profile returned by the provider fixture. -/
def cCand (profile_id : Int) : User :=
  { id := profile_id, first_name := "Anna", last_name := "Ivanova",
    sex := .female, birthday := some { year := 1996, month := 3, day := 2 },
    birthday_raw := none, city_id := some 42, city := some "Moscow",
    nickname := none, url := "vk.com/id2", online := true, state := .newUser }

/-- A provider environment where every profile resolves and photo fetches
succeed with an empty list. -/
def cEnv : Env :=
  { profiles := fun profile_id => some (cCand profile_id),
    photos := fun _ => some [],
    search := fun _ => [101, 102],
    shuffle := fun l => l,
    today := cToday,
    now := 1000 }

/-- A base model state: complete user, fresh progress, empty lists. -/
def cStateBase : ModelState :=
  { user := cUserS, progress := UserProgress.fresh, favorites := [],
    blacklist := [], cache := [] }

/-- An empty keyboard payload for renderer counterexamples. -/
def cKb : Keyboard := { one_time := false, inline := false, button_rows := [] }

/-- The response stream of the renderer counterexample: three events, exactly
one non-squashable at position 1, the two squashable neighbors rendering to
keyboard-only messages with empty text. -/
def cRespsC1 : List Response :=
  [ResponseFactory.keyboard cKb true,
   ResponseFactory.unknown_command false,
   ResponseFactory.keyboard cKb true]

/-- A response that may be squashed and whose rendering carries visible text
(so it contributes a paragraph to the accumulator of `render_messages`). -/
abbrev squashableWithText (today : PyDate) (user : User) (r : Response) : Prop :=
  r.allowSquash = true ∧ (renderResponse today r user).text ≠ ""

/-- The four classification actions reachable from the Searching, FavoriteList
and Blacklist states. -/
inductive ClassifyAction where
  | searchingFavorite
  | searchingBlacklist
  | favoriteListBlacklist
  | blacklistFavorite
deriving DecidableEq, Repr

/-- Dispatch a classification action to its handler. -/
def runClassify : ClassifyAction → M Unit
  | .searchingFavorite => searchingAddFavorite
  | .searchingBlacklist => searchingAddBlacklist
  | .favoriteListBlacklist => favAddBlacklist
  | .blacklistFavorite => blAddFavorite

/-- The Favorite/Blacklist disjointness invariant: no profile id sits in both
of the user's lists. -/
abbrev listsDisjoint (σ : ModelState) : Prop :=
  ∀ p ∈ σ.favorites, p ∉ σ.blacklist

/-- Fixture state for the C2 witness: disjoint lists, favorite 5 shown. -/
def cStateC2 : ModelState :=
  { cStateBase with
    favorites := [5]
    blacklist := [9]
    progress := { UserProgress.fresh with last_favorite_id := 5 } }

/-- Fixture state for the C6 witness: two favorite records. -/
def cStateC6 : ModelState := { cStateBase with favorites := [7, 8] }

/-- Fixture state for the C7 evaluation: three favorites, the one at index 1
(id 6) currently shown, blacklist cursor at 0. -/
def cStateC7 : ModelState :=
  { cStateBase with
    favorites := [5, 6, 7]
    progress := { UserProgress.fresh with
      last_favorite_index := 1
      last_favorite_id := 6 } }

/-- Fixture state for the C9 witness: the last-found profile 33 is already a
favorite. -/
def cStateC9 : ModelState :=
  { cStateBase with
    favorites := [33]
    progress := { UserProgress.fresh with last_found_id := some 33 } }

/-- Fixture state for the C10 witness: three favorites, cursor at index 0. -/
def cStateC10 : ModelState := { cStateBase with favorites := [7, 8, 9] }

/-- Fixture state for the C4 witness: the user's sex is unknown. -/
def cStateC4 : ModelState := { cStateBase with user := cUserNoSex }

/-- Fixture query for the C3 witness. -/
def cQuery : UserSearchQuery :=
  { sex := some .female, city_id := some 42, online := some true,
    has_photo := some true, age_min := some 29, age_max := some 31,
    sort := none }

/-! ## Theorems -/

/-- Flushing lemma: a run of squashable responses with visible text produces
exactly one outbound message unless both the pending accumulator and the run
are empty. -/
theorem renderLoop_all_squash_length (today : PyDate) (user : User) :
    ∀ (rs : List Response) (kb : Option Keyboard) (pars : List String)
      (med : List Media),
      (∀ r ∈ rs, squashableWithText today user r) →
      (renderLoop today user rs kb pars med).length
        = if pars = [] ∧ rs = [] then 0 else 1 := by
  intro rs
  induction rs with
  | nil =>
      intro kb pars med _h
      cases pars <;> simp [renderLoop]
  | cons r rest ih =>
      intro kb pars med h
      have hr := h r (List.mem_cons_self r rest)
      have hrest : ∀ x ∈ rest, squashableWithText today user x :=
        fun x hx => h x (List.mem_cons_of_mem _ hx)
      simp only [renderLoop, hr.1, Bool.true_eq_false, if_false, if_neg hr.2]
      rw [ih _ _ _ hrest]
      simp

/-- Decomposition lemma: a stream consisting of squashable-with-text events
around a single non-squashable event renders to an optional flush of the
accumulated prefix, the standalone message of the event, and an optional
squash of the suffix. -/
theorem renderLoop_standalone_decomp (today : PyDate) (user : User)
    (e : Response) (post : List Response)
    (he : e.allowSquash = false)
    (hpost : ∀ r ∈ post, squashableWithText today user r) :
    ∀ (pre : List Response) (kb : Option Keyboard) (pars : List String)
      (med : List Media),
      (∀ r ∈ pre, squashableWithText today user r) →
      ∃ pm tm,
        renderLoop today user (pre ++ e :: post) kb pars med
          = pm ++ renderResponse today e user :: tm
        ∧ pm.length = (if pars = [] ∧ pre = [] then 0 else 1)
        ∧ tm.length = (if post = [] then 0 else 1) := by
  intro pre
  induction pre with
  | nil =>
      intro kb pars med _h
      cases hp : pars with
      | nil =>
          refine ⟨[], renderLoop today user post kb [] med, ?_, by simp, ?_⟩
          · simp [renderLoop, he]
          · rw [renderLoop_all_squash_length today user post kb [] med hpost]
            simp
      | cons p ps =>
          refine ⟨[squashMessage user (p :: ps) kb med],
                  renderLoop today user post none [] [], ?_, by simp, ?_⟩
          · simp [renderLoop, he]
          · rw [renderLoop_all_squash_length today user post none [] [] hpost]
            simp
  | cons r pre2 ih =>
      intro kb pars med h
      have hr := h r (List.mem_cons_self r pre2)
      have hpre2 : ∀ x ∈ pre2, squashableWithText today user x :=
        fun x hx => h x (List.mem_cons_of_mem _ hx)
      obtain ⟨pm, tm, heq, hpm, htm⟩ :=
        ih (match (renderResponse today r user).keyboard with
            | some k => some k
            | none => kb)
          (pars ++ [(renderResponse today r user).text])
          (med ++ (renderResponse today r user).media) hpre2
      refine ⟨pm, tm, ?_, ?_, htm⟩
      · simpa [renderLoop, hr.1, if_neg hr.2] using heq
      · rw [hpm]
        simp

/-- C1 (corrected).  For a finite stream written as `pre ++ e :: post` where
the single event `e` has `allow_squash = false` and every event of `pre` and
`post` is squashable *and renders to nonempty text*, `render_messages` yields
the standalone rendering of `e` preceded by one flushed message exactly when
`pre` is nonempty and followed by one squashed message exactly when `post` is
nonempty; in particular the stream of `N` events with the non-squashable one
at position `k = pre.length` renders to exactly 3 messages when
`1 ≤ k < N-1`, 2 when `k = 0 ∨ k = N-1` (with `N > 1`), and 1 when `N = 1`.
The nonempty-text proviso is forced by the counterexample
`C1_renderer_counterexample`: keyboard- or media-only squashable events
contribute no paragraph and are never flushed. -/
theorem C1_renderer_standalone_counts (today : PyDate) (user : User)
    (pre post : List Response) (e : Response)
    (he : e.allowSquash = false)
    (hpre : ∀ r ∈ pre, squashableWithText today user r)
    (hpost : ∀ r ∈ post, squashableWithText today user r) :
    (∃ pm tm,
        renderMessages today user (pre ++ e :: post)
          = pm ++ renderResponse today e user :: tm
        ∧ pm.length = (if pre = [] then 0 else 1)
        ∧ tm.length = (if post = [] then 0 else 1))
    ∧ (renderMessages today user (pre ++ e :: post)).length
        = (if pre = [] then 0 else 1) + 1 + (if post = [] then 0 else 1) := by
  obtain ⟨pm, tm, heq, hpm, htm⟩ :=
    renderLoop_standalone_decomp today user e post he hpost pre none [] [] hpre
  have hpm2 : pm.length = (if pre = [] then 0 else 1) := by simpa using hpm
  constructor
  · exact ⟨pm, tm, heq, hpm2, htm⟩
  · show (renderLoop today user (pre ++ e :: post) none [] []).length = _
    rw [heq]
    simp only [List.length_append, List.length_cons, hpm2, htm]
    omega

/-- Witness for `C1_renderer_standalone_counts` at a concrete 3-event stream
(`k = 1`, `N = 3`): the renderer outputs exactly 3 messages. -/
theorem C1_renderer_standalone_counts_witness :
    ((ResponseFactory.unknown_command false).allowSquash = false
      ∧ (∀ r ∈ [ResponseFactory.text "a" true], squashableWithText cToday cUserS r)
      ∧ (∀ r ∈ [ResponseFactory.text "b" true], squashableWithText cToday cUserS r))
    ∧ (renderMessages cToday cUserS
        ([ResponseFactory.text "a" true] ++
          ResponseFactory.unknown_command false :: [ResponseFactory.text "b" true])).length
        = (if ([ResponseFactory.text "a" true] : List Response) = [] then 0 else 1)
          + 1 +
          (if ([ResponseFactory.text "b" true] : List Response) = [] then 0 else 1) :=
  ⟨⟨by decide, by decide, by decide⟩,
   (C1_renderer_standalone_counts cToday cUserS
      [ResponseFactory.text "a" true] [ResponseFactory.text "b" true]
      (ResponseFactory.unknown_command false)
      (by decide) (by decide) (by decide)).2⟩

/-- Counterexample to C1 as stated: a stream of `N = 3` responses whose single
non-squashable event sits at position `k = 1` (so the claim demands exactly 3
outbound messages), but whose squashable neighbors are keyboard events
rendering to empty text — the renderer emits exactly 1 message. -/
theorem C1_renderer_counterexample :
    cRespsC1.length = 3
    ∧ cRespsC1.map Response.allowSquash = [true, false, true]
    ∧ (renderMessages cToday cUserS cRespsC1).length = 1 := by
  decide

/-- C5: every invocation of `StateManager.start` begins its event trace with
the committed transaction of `_update_user_state` — before any response is
yielded — and that commit sets the user's state to the requested state while
saving the state the user was in immediately before into
`Progress.last_state`, leaving the favorite/blacklist rows untouched. -/
theorem C5_start_persists_state_before_responses (env : Env) (σ : ModelState)
    (s : UserState) :
    ∃ σ1 rest,
      traceOf (stateManagerStart s) env σ = Item.commit σ1 :: rest
      ∧ σ1.user.state = s
      ∧ σ1.progress.last_state = σ.user.state
      ∧ σ1.favorites = σ.favorites
      ∧ σ1.blacklist = σ.blacklist :=
  ⟨_, _, rfl, rfl, rfl, rfl, rfl⟩

/-- `attach_profile_photos` never changes the model state. -/
theorem finalState_attachProfilePhotos (profile_id : Int) (env : Env)
    (σ : ModelState) :
    finalState (attachProfilePhotos profile_id) env σ = σ := by
  unfold attachProfilePhotos catchProviderError getUserPhotosP finalState
  cases h : env.photos profile_id <;> simp [h, emitR, Bind.bind, Monad.toBind]

/-- `StateManager.start_main_menu` changes only the user row and the progress
cursors, never the favorite/blacklist rows. -/
theorem finalState_startMainMenu_lists (env : Env) (σ : ModelState) :
    (finalState startMainMenu env σ).favorites = σ.favorites
    ∧ (finalState startMainMenu env σ).blacklist = σ.blacklist :=
  ⟨rfl, rfl⟩

/-- Unfolding lemma for `bind` runs of the handler monad. -/
@[simp] theorem run_bind {α β : Type} (x : M α) (f : α → M β) (env : Env)
    (σ : ModelState) :
    (x >>= f) env σ =
      match x env σ with
      | (Except.error e, σ2, tr) => (Except.error e, σ2, tr)
      | (Except.ok a, σ2, tr) =>
          ((f a env σ2).1, (f a env σ2).2.1, tr ++ (f a env σ2).2.2) := by
  show (match x env σ with
        | (Except.error e, σ2, tr) => (Except.error e, σ2, tr)
        | (Except.ok a, σ2, tr) =>
            match f a env σ2 with
            | (r, σ3, tr2) => (r, σ3, tr ++ tr2)) = _
  rcases x env σ with ⟨r, σ2, tr⟩
  cases r <;> rfl

/-- Unfolding lemma for `pure` runs of the handler monad. -/
@[simp] theorem run_pure {α : Type} (a : α) (env : Env) (σ : ModelState) :
    (pure a : M α) env σ = (Except.ok a, σ, []) := rfl

/-- Unfolding lemma for `emitR` runs. -/
@[simp] theorem run_emitR (r : Response) (env : Env) (σ : ModelState) :
    emitR r env σ = (Except.ok (), σ, [Item.out r]) := rfl

/-- Unfolding lemma for `getState` runs. -/
@[simp] theorem run_getState (env : Env) (σ : ModelState) :
    getState env σ = (Except.ok σ, σ, []) := rfl

/-- Unfolding lemma for `readEnv` runs. -/
@[simp] theorem run_readEnv (env : Env) (σ : ModelState) :
    readEnv env σ = (Except.ok env, σ, []) := rfl

/-- Unfolding lemma for `commitWith` runs. -/
@[simp] theorem run_commitWith (f : ModelState → ModelState) (env : Env)
    (σ : ModelState) :
    commitWith f env σ = (Except.ok (), f σ, [Item.commit (f σ)]) := rfl

/-- Unfolding lemma for `catchProviderError` runs. -/
@[simp] theorem run_catchProviderError {α : Type} (x handler : M α) (env : Env)
    (σ : ModelState) :
    catchProviderError x handler env σ =
      match x env σ with
      | (Except.error .provider, σ2, tr) =>
          ((handler env σ2).1, (handler env σ2).2.1, tr ++ (handler env σ2).2.2)
      | other => other := by
  show (match x env σ with
        | (Except.error .provider, σ2, tr) =>
            match handler env σ2 with
            | (r, σ3, tr2) => (r, σ3, tr ++ tr2)
        | other => other) = _
  rcases x env σ with ⟨r, σ2, tr⟩
  rcases r with e | a
  · cases e <;> rfl
  · rfl

/-- Projection form of `finalState_attachProfilePhotos` for `simp`. -/
@[simp] theorem attachProfilePhotos_state (profile_id : Int) (env : Env)
    (σ : ModelState) :
    (attachProfilePhotos profile_id env σ).2.1 = σ :=
  finalState_attachProfilePhotos profile_id env σ

/-- `start_main_menu` leaves the favorite rows untouched (projection form). -/
@[simp] theorem startMainMenu_state_favorites (env : Env) (σ : ModelState) :
    ((startMainMenu env σ).2.1).favorites = σ.favorites := rfl

/-- `start_main_menu` leaves the blacklist rows untouched (projection form). -/
@[simp] theorem startMainMenu_state_blacklist (env : Env) (σ : ModelState) :
    ((startMainMenu env σ).2.1).blacklist = σ.blacklist := rfl

/-- `FavoriteListState._show_internal` changes only progress cursors and the
user row, never the favorite/blacklist rows — even when it aborts with a
provider error. -/
theorem favShowInternal_lists (idx : Int) (env : Env) (σ : ModelState) :
    ((favShowInternal idx env σ).2.1).favorites = σ.favorites
    ∧ ((favShowInternal idx env σ).2.1).blacklist = σ.blacklist := by
  unfold favShowInternal
  simp only [run_bind, run_pure, run_emitR, run_getState, run_readEnv,
    run_commitWith]
  split
  · exact ⟨rfl, rfl⟩
  · cases hq : σ.favorites[(idx % (σ.favorites.length : Int)).toNat]? with
    | none => simp [hq]
    | some pid =>
        simp only [hq]
        unfold getUserProfileP
        cases hp : env.profiles pid
        · simp [hp]
        · simp [hp]

/-- `FavoriteListState._show` changes only progress cursors and the user row,
never the favorite/blacklist rows. -/
theorem favShow_lists (idx : Int) (env : Env) (σ : ModelState) :
    ((favShow idx env σ).2.1).favorites = σ.favorites
    ∧ ((favShow idx env σ).2.1).blacklist = σ.blacklist := by
  unfold favShow
  rw [run_catchProviderError]
  have h2 := favShowInternal_lists idx env σ
  rcases hrun : favShowInternal idx env σ with ⟨r, σ2, tr⟩
  rw [hrun] at h2
  rcases r with e | a
  · cases e
    · simp only [run_bind, run_emitR]
      simpa using h2
    · simpa using h2
  · simpa using h2

/-- `BlacklistState._show_internal` changes only progress cursors and the user
row, never the favorite/blacklist rows. -/
theorem blShowInternal_lists (idx : Int) (env : Env) (σ : ModelState) :
    ((blShowInternal idx env σ).2.1).favorites = σ.favorites
    ∧ ((blShowInternal idx env σ).2.1).blacklist = σ.blacklist := by
  unfold blShowInternal
  simp only [run_bind, run_pure, run_emitR, run_getState, run_readEnv,
    run_commitWith]
  split
  · exact ⟨rfl, rfl⟩
  · cases hq : σ.blacklist[(idx % (σ.blacklist.length : Int)).toNat]? with
    | none => simp [hq]
    | some pid =>
        simp only [hq]
        unfold getUserProfileP
        cases hp : env.profiles pid
        · simp [hp]
        · simp [hp]

/-- `BlacklistState._show` changes only progress cursors and the user row,
never the favorite/blacklist rows. -/
theorem blShow_lists (idx : Int) (env : Env) (σ : ModelState) :
    ((blShow idx env σ).2.1).favorites = σ.favorites
    ∧ ((blShow idx env σ).2.1).blacklist = σ.blacklist := by
  unfold blShow
  rw [run_catchProviderError]
  have h2 := blShowInternal_lists idx env σ
  rcases hrun : blShowInternal idx env σ with ⟨r, σ2, tr⟩
  rw [hrun] at h2
  rcases r with e | a
  · cases e
    · simp only [run_bind, run_emitR]
      simpa using h2
    · simpa using h2
  · simpa using h2

/-- The existence guard of `SearchingState._add_favorite` collapses into the
set-insert semantics of `add_favorite`. -/
theorem guarded_addFavorite_eq (σ : ModelState) (pid : Int) :
    (if σ.favoriteExists pid then σ else σ.addFavorite pid)
      = σ.addFavorite pid := by
  unfold ModelState.favoriteExists ModelState.addFavorite
  by_cases hc : pid ∈ σ.favorites <;> simp [hc]

/-- The existence guard of `SearchingState._add_blacklist` collapses into the
set-insert semantics of `add_blacklist`. -/
theorem guarded_addBlacklist_eq (σ : ModelState) (pid : Int) :
    (if σ.blacklistExists pid then σ else σ.addBlacklist pid)
      = σ.addBlacklist pid := by
  unfold ModelState.blacklistExists ModelState.addBlacklist
  by_cases hc : pid ∈ σ.blacklist <;> simp [hc]

/-- Deleting an id from the blacklist and inserting it into favorites keeps
the two lists disjoint. -/
theorem disjoint_after_addFavorite (σ : ModelState) (pid : Int)
    (h : listsDisjoint σ) :
    listsDisjoint ((σ.deleteBlacklist pid).addFavorite pid) := by
  intro p hp hbl
  unfold ModelState.addFavorite ModelState.deleteBlacklist at hp hbl
  by_cases hc : pid ∈ σ.favorites <;>
      simp [hc, List.mem_filter] at hp hbl
  · exact h p hp hbl.1
  · rcases hp with hp | hp
    · exact h p hp hbl.1
    · exact hbl.2 hp

/-- Deleting an id from favorites and inserting it into the blacklist keeps
the two lists disjoint. -/
theorem disjoint_after_addBlacklist (σ : ModelState) (pid : Int)
    (h : listsDisjoint σ) :
    listsDisjoint ((σ.deleteFavorite pid).addBlacklist pid) := by
  intro p hp hbl
  unfold ModelState.addBlacklist ModelState.deleteFavorite at hp hbl
  by_cases hc : pid ∈ σ.blacklist <;>
      simp [hc, List.mem_filter] at hp hbl
  · exact h p hp.1 hbl
  · rcases hbl with hbl | hbl
    · exact h p hp.1 hbl
    · exact hp.2 hbl

/-- C2: every single classification action — `AddFavorite` or `AddBlacklist`
issued from the Searching, FavoriteList or Blacklist state — preserves the
invariant that no profile id is simultaneously in the user's Favorite and
Blacklist sets: each action deletes the candidate from the other list and then
inserts it within a single committed transaction. -/
theorem C2_classification_keeps_lists_disjoint (a : ClassifyAction) (env : Env)
    (σ : ModelState) (h : listsDisjoint σ) :
    listsDisjoint (finalState (runClassify a) env σ) := by
  cases a with
  | searchingFavorite =>
      show listsDisjoint (finalState searchingAddFavorite env σ)
      unfold finalState searchingAddFavorite
      simp only [run_bind, run_getState]
      cases hl : σ.progress.last_found_id with
      | none => simpa [hl] using h
      | some pid =>
          simp only [hl, run_bind, run_commitWith, run_emitR]
          simpa [guarded_addFavorite_eq] using
            disjoint_after_addFavorite σ pid h
  | searchingBlacklist =>
      show listsDisjoint (finalState searchingAddBlacklist env σ)
      unfold finalState searchingAddBlacklist
      simp only [run_bind, run_getState]
      cases hl : σ.progress.last_found_id with
      | none => simpa [hl] using h
      | some pid =>
          simp only [hl, run_bind, run_commitWith, run_emitR]
          simpa [guarded_addBlacklist_eq] using
            disjoint_after_addBlacklist σ pid h
  | favoriteListBlacklist =>
      show listsDisjoint (finalState favAddBlacklist env σ)
      unfold finalState favAddBlacklist
      simp only [run_bind, run_getState, run_commitWith]
      intro p hp hbl
      rw [(favShow_lists _ env _).1] at hp
      rw [(favShow_lists _ env _).2] at hbl
      exact disjoint_after_addBlacklist σ σ.progress.last_favorite_id h p hp hbl
  | blacklistFavorite =>
      show listsDisjoint (finalState blAddFavorite env σ)
      unfold finalState blAddFavorite
      simp only [run_bind, run_getState, run_commitWith]
      intro p hp hbl
      rw [(blShow_lists _ env _).1] at hp
      rw [(blShow_lists _ env _).2] at hbl
      exact disjoint_after_addFavorite σ σ.progress.last_blacklist_id h p hp hbl

/-- Witness for `C2_classification_keeps_lists_disjoint`: moving the shown
favorite (id 5) to the blacklist from the FavoriteList state, starting from
disjoint lists `favorites = [5]`, `blacklist = [9]`. -/
theorem C2_classification_keeps_lists_disjoint_witness :
    listsDisjoint cStateC2
    ∧ listsDisjoint
        (finalState (runClassify .favoriteListBlacklist) cEnv cStateC2) :=
  ⟨by decide,
   C2_classification_keeps_lists_disjoint .favoriteListBlacklist cEnv cStateC2
     (by decide)⟩

/-- C9: in the Searching state, `AddFavorite` is idempotent on the favorite
set: when the recorded last-found profile id is already a favorite, the
existence check skips the insert, the favorite rows are unchanged, and the
success response `ADDED_TO_FAVORITE` is still yielded. -/
theorem C9_add_favorite_idempotent (env : Env) (σ : ModelState) (pid : Int)
    (hl : σ.progress.last_found_id = some pid)
    (hmem : pid ∈ σ.favorites) :
    (finalState searchingAddFavorite env σ).favorites = σ.favorites
    ∧ outputsOf searchingAddFavorite env σ
        = [ResponseFactory.added_to_favorite true] := by
  have hex : (σ.deleteBlacklist pid).favoriteExists pid = true := by
    simp [ModelState.favoriteExists, ModelState.deleteBlacklist, hmem]
  unfold finalState outputsOf traceOf searchingAddFavorite
  simp only [run_bind, run_getState, hl, run_commitWith, run_emitR, hex]
  constructor
  · simp [ModelState.deleteBlacklist]
  · simp

/-- Witness for `C9_add_favorite_idempotent` at `favorites = [33]`,
`last_found_id = 33`. -/
theorem C9_add_favorite_idempotent_witness :
    (cStateC9.progress.last_found_id = some 33 ∧ (33 : Int) ∈ cStateC9.favorites)
    ∧ (finalState searchingAddFavorite cEnv cStateC9).favorites = cStateC9.favorites
    ∧ outputsOf searchingAddFavorite cEnv cStateC9
        = [ResponseFactory.added_to_favorite true] :=
  ⟨⟨by decide, by decide⟩,
   C9_add_favorite_idempotent cEnv cStateC9 33 (by decide) (by decide)⟩

/-- C8 (code evaluated at the failing input): a freshly created `UserProgress`
row carries the schema default `last_found_id = 0` — not `None` — so the
`is not None` guard of `SearchingState._add_favorite` passes, the handler
inserts profile id 0 into the favorites (after deleting it from the
blacklist) and yields `ADDED_TO_FAVORITE`; the claim requires the
`ADD_TO_FAVORITE_FAILED` response and no store mutation. -/
theorem C8_add_favorite_unset_progress_mutates :
    cStateBase.progress = UserProgress.fresh
    ∧ UserProgress.fresh.last_found_id = some 0
    ∧ (finalState searchingAddFavorite cEnv cStateBase).favorites = [0]
    ∧ outputsOf searchingAddFavorite cEnv cStateBase
        = [ResponseFactory.added_to_favorite true] := by
  decide

/-- C7 (code evaluated at the failing input): classifying the shown favorite
(id 6, at pagination index 1) as blacklisted from the FavoriteList state
re-displays the favorite list at `progress.last_blacklist_index = 0` — the
first record — instead of the index 1 the user was at; the record id 6 is
moved correctly, but the pagination position is taken from the wrong
cursor (`favorite_list.py:153`). -/
theorem C7_favorite_add_blacklist_wrong_index :
    cStateC7.progress.last_favorite_index = 1
    ∧ cStateC7.progress.last_blacklist_index = 0
    ∧ (finalState favAddBlacklist cEnv cStateC7).favorites = [5, 7]
    ∧ (finalState favAddBlacklist cEnv cStateC7).blacklist = [6]
    ∧ (finalState favAddBlacklist cEnv cStateC7).progress.last_favorite_index = 0
    ∧ outputsOf favAddBlacklist cEnv cStateC7
        = [ResponseFactory.favorite_result (cCand 5) 1 2 true,
           ResponseFactory.attach_media [] true] := by
  decide

/-- C6: favorite pagination is idempotent under modulo normalization — for a
nonempty favorite list, showing index `i` and showing index `i % count` are
the very same run (same displayed record, same stored
`last_favorite_index`, same responses). -/
theorem C6_pagination_mod_idempotent (env : Env) (σ : ModelState) (i : Int)
    (_h : 0 < σ.favorites.length) :
    favShowInternal i env σ
      = favShowInternal (i % (σ.favorites.length : Int)) env σ := by
  unfold favShowInternal
  simp only [run_bind, run_getState]
  rw [Int.emod_emod_of_dvd i (dvd_refl (σ.favorites.length : Int))]

/-- Witness for `C6_pagination_mod_idempotent` at `favorites = [7, 8]`,
`i = 5`. -/
theorem C6_pagination_mod_idempotent_witness :
    0 < cStateC6.favorites.length
    ∧ favShowInternal 5 cEnv cStateC6
        = favShowInternal (5 % (cStateC6.favorites.length : Int)) cEnv cStateC6 :=
  ⟨by decide, C6_pagination_mod_idempotent cEnv cStateC6 5 (by decide)⟩

/-- Python `-1 % n` wraps to `n - 1` for a positive modulus (Lean's `Int.emod`
agrees with Python `%` there). -/
theorem neg_one_emod_of_pos (n : Nat) (h : n ≠ 0) :
    (-1 : Int) % (n : Int) = (n : Int) - 1 := by
  have h1 : (0 : Int) ≤ (n : Int) - 1 := by omega
  have h2 : (n : Int) - 1 < (n : Int) := by omega
  calc (-1 : Int) % (n : Int)
      = (((n : Int) - 1) + (n : Int) * (-1)) % (n : Int) := by
        rw [show ((n : Int) - 1) + (n : Int) * (-1) = (-1 : Int) by ring]
    _ = ((n : Int) - 1) % (n : Int) :=
        @Int.add_mul_emod_self_left ((n : Int) - 1) (n : Int) (-1)
    _ = (n : Int) - 1 := Int.emod_eq_of_lt h1 h2

/-- C10: with a nonempty favorite list and the stored pagination cursor at 0,
sending `Prev` in the FavoriteList state shows the record at index
`count - 1` (displayed 1-based as `count / count`) and stores
`last_favorite_index = count - 1`: the modulo normalization maps `-1` into
range, so pagination wraps at both ends. -/
theorem C10_prev_wraps_to_last_index (env : Env) (σ : ModelState)
    (pid : Int) (prof : User) (phs : List Photo)
    (hne : σ.favorites ≠ [])
    (hidx : σ.progress.last_favorite_index = 0)
    (hlast : σ.favorites[σ.favorites.length - 1]? = some pid)
    (hprof : env.profiles pid = some prof)
    (hph : env.photos pid = some phs) :
    outputsOf (favoriteListRespond (.token .prev)) env σ
      = [ResponseFactory.keyboard FavoriteListState.KEYBOARD true,
         ResponseFactory.favorite_result prof (σ.favorites.length : Int)
           (σ.favorites.length : Int) true,
         ResponseFactory.attach_media phs true]
    ∧ (finalState (favoriteListRespond (.token .prev)) env σ).progress.last_favorite_index
        = (σ.favorites.length : Int) - 1
    ∧ (finalState (favoriteListRespond (.token .prev)) env σ).progress.last_favorite_id
        = pid := by
  have hlen : σ.favorites.length ≠ 0 := fun hh => hne (List.length_eq_zero.mp hh)
  have hmod : (-1 : Int) % (σ.favorites.length : Int)
      = (σ.favorites.length : Int) - 1 := neg_one_emod_of_pos _ hlen
  have htonat : ((σ.favorites.length : Int) - 1).toNat = σ.favorites.length - 1 := by
    omega
  have hacc : isCommandAccepted FavoriteListState.MENU_OPTIONS
      (InputText.token .prev) = true := rfl
  unfold outputsOf traceOf finalState favoriteListRespond favShow favShowInternal
    attachProfilePhotos
  simp only [run_bind, run_getState, run_emitR, run_commitWith,
    run_catchProviderError, run_pure, hacc, hidx, Bool.not_true, zero_sub]
  simp [hne, hlen, hmod, htonat, hlast, hprof, hph, getUserProfileP,
    getUserPhotosP, sub_add_cancel]

/-- Witness for `C10_prev_wraps_to_last_index` at `favorites = [7, 8, 9]`,
cursor 0: `Prev` shows record id 9 at index 2, displayed as `3 / 3`. -/
theorem C10_prev_wraps_to_last_index_witness :
    (cStateC10.favorites ≠ []
      ∧ cStateC10.progress.last_favorite_index = 0
      ∧ cStateC10.favorites[cStateC10.favorites.length - 1]? = some 9
      ∧ cEnv.profiles 9 = some (cCand 9)
      ∧ cEnv.photos 9 = some [])
    ∧ (outputsOf (favoriteListRespond (.token .prev)) cEnv cStateC10
        = [ResponseFactory.keyboard FavoriteListState.KEYBOARD true,
           ResponseFactory.favorite_result (cCand 9)
             (cStateC10.favorites.length : Int)
             (cStateC10.favorites.length : Int) true,
           ResponseFactory.attach_media [] true]
      ∧ (finalState (favoriteListRespond (.token .prev)) cEnv
            cStateC10).progress.last_favorite_index
          = (cStateC10.favorites.length : Int) - 1
      ∧ (finalState (favoriteListRespond (.token .prev)) cEnv
            cStateC10).progress.last_favorite_id = 9) :=
  ⟨⟨by decide, by decide, by decide, by decide, by decide⟩,
   C10_prev_wraps_to_last_index cEnv cStateC10 9 (cCand 9) []
     (by decide) (by decide) (by decide) (by decide) (by decide)⟩

/-- When the search query cannot be built, `SearchingState.start` runs to: the
searching keyboard, the missing-attribute response, the persisted transition
to the main menu, and the main menu's keyboard and prompt — with no provider
interaction. -/
theorem searchingStart_run_inr (env : Env) (σ : ModelState) (r : Response)
    (hq : getSearchQuery env.today σ.user = Sum.inr r) :
    searchingStart env σ =
      (Except.ok (),
       { σ with
         user := { σ.user with state := .mainMenu }
         progress := { σ.progress with last_state := σ.user.state } },
       [Item.out (ResponseFactory.keyboard SearchingState.KEYBOARD true),
        Item.out r,
        Item.commit { σ with
          user := { σ.user with state := .mainMenu }
          progress := { σ.progress with last_state := σ.user.state } },
        Item.out (ResponseFactory.keyboard MainMenuState.KEYBOARD true),
        Item.out (ResponseFactory.select_menu true)]) := by
  unfold searchingStart startMainMenu updateUserState mainMenuStart
  simp [hq]

/-- C4: for every user with a missing search-relevant attribute — unknown sex,
unset city id, or unset birthday (hence unknown age) — `Searching.start`
yields the searching keyboard followed by the missing-attribute response for
the first missing attribute (checked in source order sex, city, birthday),
re-enters the main menu, and performs no provider interaction whatsoever (in
particular no provider search pass); unknown sex alone blocks the search
entirely. -/
theorem C4_missing_attribute_short_circuits (env : Env) (σ : ModelState)
    (hmiss : σ.user.sex = .notKnown ∨ σ.user.city_id = none
      ∨ σ.user.age env.today = none) :
    ∃ r, getSearchQuery env.today σ.user = Sum.inr r
      ∧ ((r = ResponseFactory.user_sex_missing true ∧ σ.user.sex = .notKnown)
        ∨ (r = ResponseFactory.user_city_missing true ∧ σ.user.city_id = none)
        ∨ (r = ResponseFactory.user_birthday_missing true
            ∧ σ.user.age env.today = none))
      ∧ outputsOf searchingStart env σ
          = [ResponseFactory.keyboard SearchingState.KEYBOARD true, r,
             ResponseFactory.keyboard MainMenuState.KEYBOARD true,
             ResponseFactory.select_menu true]
      ∧ searchPassesOf (traceOf searchingStart env σ) = []
      ∧ hasProviderItem (traceOf searchingStart env σ) = false
      ∧ (finalState searchingStart env σ).user.state = .mainMenu := by
  rcases hs : SEARCH_SEX_MAP σ.user.sex with _ | s
  · -- sex missing blocks everything else
    have hsex : σ.user.sex = .notKnown := by
      cases h2 : σ.user.sex <;> simp [SEARCH_SEX_MAP, h2] at hs ⊢
    have hq : getSearchQuery env.today σ.user
        = Sum.inr (ResponseFactory.user_sex_missing true) := by
      simp [getSearchQuery, FILTER_BY_SEX, hs]
    refine ⟨_, hq, Or.inl ⟨rfl, hsex⟩, ?_, ?_, ?_, ?_⟩ <;>
      simp [outputsOf, traceOf, finalState, searchPassesOf, hasProviderItem,
        searchingStart_run_inr env σ _ hq]
  · rcases hc : σ.user.city_id with _ | c
    · -- city missing
      have hq : getSearchQuery env.today σ.user
          = Sum.inr (ResponseFactory.user_city_missing true) := by
        simp [getSearchQuery, FILTER_BY_SEX, FILTER_BY_CITY, hs, hc]
      refine ⟨_, hq, Or.inr (Or.inl ⟨rfl, rfl⟩), ?_, ?_, ?_, ?_⟩ <;>
        simp [outputsOf, traceOf, finalState, searchPassesOf, hasProviderItem,
          searchingStart_run_inr env σ _ hq]
    · rcases ha : σ.user.age env.today with _ | a
      · -- birthday missing
        have hq : getSearchQuery env.today σ.user
            = Sum.inr (ResponseFactory.user_birthday_missing true) := by
          simp [getSearchQuery, FILTER_BY_SEX, FILTER_BY_CITY, FILTER_BY_AGE,
            hs, hc, ha]
        refine ⟨_, hq, Or.inr (Or.inr ⟨rfl, rfl⟩), ?_, ?_, ?_, ?_⟩ <;>
          simp [outputsOf, traceOf, finalState, searchPassesOf, hasProviderItem,
            searchingStart_run_inr env σ _ hq]
      · -- no attribute missing contradicts the hypothesis
        exfalso
        rcases hmiss with h | h | h
        · rw [h] at hs
          simp [SEARCH_SEX_MAP] at hs
        · simp [h] at hc
        · simp [h] at ha

/-- Witness for `C4_missing_attribute_short_circuits`: a user of unknown sex
(with city and birthday present) gets the sex-missing response and the main
menu, with no provider interaction. -/
theorem C4_missing_attribute_short_circuits_witness :
    (cStateC4.user.sex = .notKnown ∨ cStateC4.user.city_id = none
      ∨ cStateC4.user.age cEnv.today = none)
    ∧ ∃ r, getSearchQuery cEnv.today cStateC4.user = Sum.inr r
      ∧ ((r = ResponseFactory.user_sex_missing true ∧ cStateC4.user.sex = .notKnown)
        ∨ (r = ResponseFactory.user_city_missing true ∧ cStateC4.user.city_id = none)
        ∨ (r = ResponseFactory.user_birthday_missing true
            ∧ cStateC4.user.age cEnv.today = none))
      ∧ outputsOf searchingStart cEnv cStateC4
          = [ResponseFactory.keyboard SearchingState.KEYBOARD true, r,
             ResponseFactory.keyboard MainMenuState.KEYBOARD true,
             ResponseFactory.select_menu true]
      ∧ searchPassesOf (traceOf searchingStart cEnv cStateC4) = []
      ∧ hasProviderItem (traceOf searchingStart cEnv cStateC4) = false
      ∧ (finalState searchingStart cEnv cStateC4).user.state = .mainMenu :=
  ⟨Or.inl (by decide),
   C4_missing_attribute_short_circuits cEnv cStateC4 (Or.inl (by decide))⟩

/-- Looking up a key right after deleting it misses. -/
theorem cacheFind_erase (c : List (Int × SearchCacheRecord)) (uid : Int) :
    cacheFind (cacheErase c uid) uid = none := by
  unfold cacheFind cacheErase
  induction c with
  | nil => rfl
  | cons p rest ih =>
      by_cases hk : p.1 = uid
      · simp [List.filter_cons, hk]
      · simp [List.filter_cons, hk, List.find?_cons, bne_iff_ne]

/-- Looking up a key right after setting it returns the stored record. -/
theorem cacheFind_set (c : List (Int × SearchCacheRecord)) (uid : Int)
    (record : SearchCacheRecord) :
    cacheFind (cacheSet c uid record) uid = some record := by
  unfold cacheFind cacheSet
  simp [List.find?_cons]

/-- C3: starting from a cache miss for the user, a search performs exactly the
two provider search passes (relevance-sorted, then newest-sorted) and caches
their concatenation with expiry `now + 5 minutes`; a second search issued
while that entry is live performs no provider search pass, returns the very
cached list, and leaves the state untouched; a second search issued at or
after the expiry performs fresh provider passes and replaces the entry (the
expired entry is treated as absent and evicted on that access, as the final
conjunct states for `_get_cache_record` in isolation). -/
theorem C3_search_cache_ttl (env : Env) (σ0 : ModelState) (uid : Int)
    (q1 q2 : UserSearchQuery) (t2 : Nat)
    (hm : cacheFind σ0.cache uid = none) :
    searchPassesOf (traceOf (getSearchResults uid q1) env σ0)
      = [{ q1 with sort := some .relevant }, { q1 with sort := some .newest }]
    ∧ valueOf (getSearchResults uid q1) env σ0
        = Except.ok (env.search { q1 with sort := some .relevant } ++
                     env.search { q1 with sort := some .newest })
    ∧ cacheFind (finalState (getSearchResults uid q1) env σ0).cache uid
        = some ⟨env.search { q1 with sort := some .relevant } ++
                env.search { q1 with sort := some .newest },
                env.now + SearchCacheRecord.CACHE_EXPIRE_DELAY⟩
    ∧ (t2 < env.now + SearchCacheRecord.CACHE_EXPIRE_DELAY →
        searchPassesOf (traceOf (getSearchResults uid q2) { env with now := t2 }
            (finalState (getSearchResults uid q1) env σ0)) = []
        ∧ valueOf (getSearchResults uid q2) { env with now := t2 }
            (finalState (getSearchResults uid q1) env σ0)
          = valueOf (getSearchResults uid q1) env σ0
        ∧ finalState (getSearchResults uid q2) { env with now := t2 }
            (finalState (getSearchResults uid q1) env σ0)
          = finalState (getSearchResults uid q1) env σ0)
    ∧ (env.now + SearchCacheRecord.CACHE_EXPIRE_DELAY ≤ t2 →
        searchPassesOf (traceOf (getSearchResults uid q2) { env with now := t2 }
            (finalState (getSearchResults uid q1) env σ0))
          = [{ q2 with sort := some .relevant }, { q2 with sort := some .newest }]
        ∧ cacheFind (finalState (getSearchResults uid q2) { env with now := t2 }
            (finalState (getSearchResults uid q1) env σ0)).cache uid
          = some ⟨env.search { q2 with sort := some .relevant } ++
                  env.search { q2 with sort := some .newest },
                  t2 + SearchCacheRecord.CACHE_EXPIRE_DELAY⟩)
    ∧ (∀ σ : ModelState, ∀ record : SearchCacheRecord,
        cacheFind σ.cache uid = some record → record.expire_time ≤ env.now →
        valueOf (getCacheRecord uid) env σ = Except.ok none
        ∧ cacheFind (finalState (getCacheRecord uid) env σ).cache uid = none) := by
  have h1 : getSearchResults uid q1 env σ0
      = (Except.ok (env.search { q1 with sort := some .relevant } ++
                    env.search { q1 with sort := some .newest }),
         { σ0 with cache := (cacheSet σ0.cache uid
             ⟨env.search { q1 with sort := some .relevant } ++
              env.search { q1 with sort := some .newest },
              env.now + SearchCacheRecord.CACHE_EXPIRE_DELAY⟩) },
         [Item.provSearch { q1 with sort := some .relevant },
          Item.provSearch { q1 with sort := some .newest }]) := by
    unfold getSearchResults getCacheRecord requestNewSearchResults saveToCache
      searchUsersP
    simp [hm]
  refine ⟨?_, ?_, ?_, ?_, ?_, ?_⟩
  · simp [searchPassesOf, traceOf, h1]
  · simp [valueOf, h1]
  · simp [finalState, h1, cacheFind_set]
  · intro ht
    have hstate : finalState (getSearchResults uid q1) env σ0
        = { σ0 with cache := (cacheSet σ0.cache uid
            ⟨env.search { q1 with sort := some .relevant } ++
             env.search { q1 with sort := some .newest },
             env.now + SearchCacheRecord.CACHE_EXPIRE_DELAY⟩) } := by
      simp [finalState, h1]
    have hval : valueOf (getSearchResults uid q1) env σ0
        = Except.ok (env.search { q1 with sort := some .relevant } ++
                     env.search { q1 with sort := some .newest }) := by
      simp [valueOf, h1]
    rw [hstate, hval]
    have hlive : ¬((⟨env.search { q1 with sort := some .relevant } ++
          env.search { q1 with sort := some .newest },
          env.now + SearchCacheRecord.CACHE_EXPIRE_DELAY⟩ :
            SearchCacheRecord).expire_time ≤ t2) := by
      simpa using Nat.not_le.mpr ht
    have h2 : getSearchResults uid q2 { env with now := t2 }
        { σ0 with cache := (cacheSet σ0.cache uid
            ⟨env.search { q1 with sort := some .relevant } ++
             env.search { q1 with sort := some .newest },
             env.now + SearchCacheRecord.CACHE_EXPIRE_DELAY⟩) }
        = (Except.ok (env.search { q1 with sort := some .relevant } ++
                      env.search { q1 with sort := some .newest }),
           { σ0 with cache := (cacheSet σ0.cache uid
               ⟨env.search { q1 with sort := some .relevant } ++
                env.search { q1 with sort := some .newest },
                env.now + SearchCacheRecord.CACHE_EXPIRE_DELAY⟩) },
           []) := by
      unfold getSearchResults getCacheRecord
      simp [cacheFind_set, hlive]
    simp [searchPassesOf, traceOf, valueOf, finalState, h2]
  · intro ht
    have hstate : finalState (getSearchResults uid q1) env σ0
        = { σ0 with cache := (cacheSet σ0.cache uid
            ⟨env.search { q1 with sort := some .relevant } ++
             env.search { q1 with sort := some .newest },
             env.now + SearchCacheRecord.CACHE_EXPIRE_DELAY⟩) } := by
      simp [finalState, h1]
    rw [hstate]
    have hexp : ((⟨env.search { q1 with sort := some .relevant } ++
          env.search { q1 with sort := some .newest },
          env.now + SearchCacheRecord.CACHE_EXPIRE_DELAY⟩ :
            SearchCacheRecord).expire_time ≤ t2) := by simpa using ht
    have h3 : getSearchResults uid q2 { env with now := t2 }
        { σ0 with cache := (cacheSet σ0.cache uid
            ⟨env.search { q1 with sort := some .relevant } ++
             env.search { q1 with sort := some .newest },
             env.now + SearchCacheRecord.CACHE_EXPIRE_DELAY⟩) }
        = (Except.ok (env.search { q2 with sort := some .relevant } ++
                      env.search { q2 with sort := some .newest }),
           { σ0 with cache := (cacheSet (cacheErase
               (cacheSet σ0.cache uid
                 ⟨env.search { q1 with sort := some .relevant } ++
                  env.search { q1 with sort := some .newest },
                  env.now + SearchCacheRecord.CACHE_EXPIRE_DELAY⟩) uid) uid
               ⟨env.search { q2 with sort := some .relevant } ++
                env.search { q2 with sort := some .newest },
                t2 + SearchCacheRecord.CACHE_EXPIRE_DELAY⟩) },
           [Item.provSearch { q2 with sort := some .relevant },
            Item.provSearch { q2 with sort := some .newest }]) := by
      unfold getSearchResults getCacheRecord requestNewSearchResults saveToCache
        searchUsersP
      simp [cacheFind_set, hexp, cacheFind_erase]
    constructor
    · simp [searchPassesOf, traceOf, h3]
    · simp [finalState, h3, cacheFind_set]
  · intro σ record hfind hexp
    unfold valueOf finalState getCacheRecord
    simp [hfind, hexp, cacheFind_erase]

/-- Witness for `C3_search_cache_ttl`: user 1 with an empty cache at
`now = 1000`, second search at `t2 = 1100` (within TTL) or later. -/
theorem C3_search_cache_ttl_witness :
    cacheFind cStateBase.cache 1 = none
    ∧ searchPassesOf (traceOf (getSearchResults 1 cQuery) cEnv cStateBase)
        = [{ cQuery with sort := some .relevant },
           { cQuery with sort := some .newest }]
    ∧ (1100 < cEnv.now + SearchCacheRecord.CACHE_EXPIRE_DELAY →
        searchPassesOf (traceOf (getSearchResults 1 cQuery)
          { cEnv with now := 1100 }
          (finalState (getSearchResults 1 cQuery) cEnv cStateBase)) = []) :=
  ⟨by decide,
   (C3_search_cache_ttl cEnv cStateBase 1 cQuery cQuery 1100 (by decide)).1,
   fun ht =>
     ((C3_search_cache_ttl cEnv cStateBase 1 cQuery cQuery 1100 (by decide)).2.2.2.1
       ht).1⟩
